import Mathlib

/-!
Scene manager: texture registry and material registry.

A shallow embedding of `Source/SceneManager.cpp`.  The manager owns two small
tables, a fixed array of (tag, GL texture name) cells with a fill counter and a
vector of material records, and talks to three collaborators: the image decoder
(`stbi_load`), the GL context and the shader manager.

Conventions of the embedding:

* a C++ array access outside the array, and a call through a null
  `m_pShaderManager`, have no defined behaviour; the embedding reports them as a
  `Fault` instead of inventing a result, so every operation that indexes
  `m_textureIDs` returns `Except Fault _`;
* what the decoder and the GL hand back is read from an `Env`;
* calls made on the GL context and on the shader manager are recorded, in
  program order, in `gl` and in the `ShaderManager` the pointer designates;
* `float` values are only ever copied by the code modelled here, so a `float`
  is represented by the rational number its literal denotes;
* text written to `std::cout` is not modelled.
-/

namespace Scene

/-! ## Data model -/

/-- Behaviour the C++ standard leaves undefined, made explicit. -/
inductive Fault where
  /-- Access to `m_textureIDs[index]` with `index` outside the array. -/
  | outOfBounds (index : Int)
  /-- Member call through `m_pShaderManager` while it is `NULL`. -/
  | nullShaderManager
deriving DecidableEq, Repr

/-- Modelled from the spec: the number of cells of `m_textureIDs` ("fixed
capacity 16"); the member is declared in `SceneManager.h`, which is not part of
the sources at hand.  The constructor's loop bound and the comment of
`BindGLTextures` use the same number. -/
def textureCapacity : Nat := 16

/-- One cell of the texture registry.  `ID` is handed to `glGenTextures` by
address, so it is a `GLuint`: a natural number below `2 ^ 32`. -/
structure TEXTURE_INFO where
  tag : String
  ID : Nat
deriving DecidableEq, Repr

/-- A `glm::vec3`. -/
abbrev Vec3 := ℚ × ℚ × ℚ

/-- One record of the material registry (the fields this file uses). -/
structure OBJECT_MATERIAL where
  diffuseColor : Vec3
  specularColor : Vec3
  shininess : ℚ
  tag : String
deriving DecidableEq, Repr

/-- The decoded image `stbi_load` hands back through its out-parameters. -/
structure Image where
  width : Int
  height : Int
  colorChannels : Int
  data : List Nat
deriving DecidableEq, Repr

/-- The GL enumerants the texture code passes. -/
inductive GLenum where
  | GL_TEXTURE_2D
  | GL_TEXTURE_WRAP_S
  | GL_TEXTURE_WRAP_T
  | GL_TEXTURE_MIN_FILTER
  | GL_TEXTURE_MAG_FILTER
  | GL_REPEAT
  | GL_LINEAR
  | GL_RGB8
  | GL_RGB
  | GL_RGBA8
  | GL_RGBA
  | GL_UNSIGNED_BYTE
deriving DecidableEq, Repr

/-- A call issued on the GL context.  `glGenTextures` carries the name the GL
wrote through the pointer; `glActiveTexture` carries the offset from
`GL_TEXTURE0`. -/
inductive GLCall where
  | glGenTextures (n : Nat) (name : Nat)
  | glBindTexture (target : GLenum) (texture : Nat)
  | glTexParameteri (target pname param : GLenum)
  | glTexImage2D (target : GLenum) (level : Int) (internalformat : GLenum)
      (width height border : Int) (format type : GLenum) (image : List Nat)
  | glGenerateMipmap (target : GLenum)
  | glActiveTexture (unit : Int)
deriving DecidableEq, Repr

/-- The model matrix `SetTransformations` builds, kept symbolic: the product
`translation * rotationZ * rotationY * rotationX * scale` is represented by the
scale vector, the three rotation angles in degrees and the position vector it
is computed from. -/
structure ModelView where
  scaleXYZ : Vec3
  XrotationDegrees : ℚ
  YrotationDegrees : ℚ
  ZrotationDegrees : ℚ
  positionXYZ : Vec3
deriving DecidableEq, Repr

/-- A uniform assignment received by the shader manager. -/
inductive UniformCall where
  | setIntValue (name : String) (value : Int)
  | setSampler2DValue (name : String) (value : Int)
  | setVec3Value (name : String) (value : Vec3)
  | setFloatValue (name : String) (value : ℚ)
  | setMat4Value (name : String) (value : ModelView)
  | setVec4Value (name : String) (value : ℚ × ℚ × ℚ × ℚ)
  | setVec2Value (name : String) (value : ℚ × ℚ)
deriving DecidableEq, Repr

/-- Modelled from the spec: the `ShaderManager` class (its header and source
are not part of the sources at hand), "a fixed uniform-naming convention
consumed by an external shading stage".  It is represented by the uniform
assignments it has received, oldest first. -/
structure ShaderManager where
  calls : List UniformCall
deriving DecidableEq, Repr

/-- Modelled from the spec: `ShaderManager::setIntValue`, recorded. -/
def ShaderManager.setIntValue (sm : ShaderManager) (name : String) (value : Int) :
    ShaderManager :=
  { calls := sm.calls ++ [UniformCall.setIntValue name value] }

/-- Modelled from the spec: `ShaderManager::setSampler2DValue`, recorded. -/
def ShaderManager.setSampler2DValue (sm : ShaderManager) (name : String) (value : Int) :
    ShaderManager :=
  { calls := sm.calls ++ [UniformCall.setSampler2DValue name value] }

/-- Modelled from the spec: `ShaderManager::setVec3Value`, recorded. -/
def ShaderManager.setVec3Value (sm : ShaderManager) (name : String) (value : Vec3) :
    ShaderManager :=
  { calls := sm.calls ++ [UniformCall.setVec3Value name value] }

/-- Modelled from the spec: `ShaderManager::setFloatValue`, recorded. -/
def ShaderManager.setFloatValue (sm : ShaderManager) (name : String) (value : ℚ) :
    ShaderManager :=
  { calls := sm.calls ++ [UniformCall.setFloatValue name value] }

/-- Modelled from the spec: `ShaderManager::setMat4Value`, recorded. -/
def ShaderManager.setMat4Value (sm : ShaderManager) (name : String) (value : ModelView) :
    ShaderManager :=
  { calls := sm.calls ++ [UniformCall.setMat4Value name value] }

/-- Modelled from the spec: `ShaderManager::setVec4Value`, recorded. -/
def ShaderManager.setVec4Value (sm : ShaderManager) (name : String)
    (value : ℚ × ℚ × ℚ × ℚ) : ShaderManager :=
  { calls := sm.calls ++ [UniformCall.setVec4Value name value] }

/-- Modelled from the spec: `ShaderManager::setVec2Value`, recorded. -/
def ShaderManager.setVec2Value (sm : ShaderManager) (name : String) (value : ℚ × ℚ) :
    ShaderManager :=
  { calls := sm.calls ++ [UniformCall.setVec2Value name value] }

/-- What the collaborators outside the program answer: the decoder's result for
a file name (`none` is the null pointer) and the texture name the GL hands out
after a given history of GL calls. -/
structure Env where
  stbi_load : String → Option Image
  glGenTextures : List GLCall → Nat

/-- The scene manager's members that the registries involve, together with the
record of the GL calls it has issued. -/
structure SceneManager where
  m_pShaderManager : Option ShaderManager
  m_textureIDs : List TEXTURE_INFO
  m_loadedTextures : Int
  m_objectMaterials : List OBJECT_MATERIAL
  gl : List GLCall
deriving DecidableEq, Repr

/-- The name of the uniform switching texturing on (`g_UseTextureName`). -/
def g_UseTextureName : String := "bUseTexture"

/-- The name of the texture sampler uniform (`g_TextureValueName`). -/
def g_TextureValueName : String := "objectTexture"

/-! ## Operations -/

/-- The constructor: all `textureCapacity` cells get the tag `"/0"` and the ID
`-1`, which in a `GLuint` is `2 ^ 32 - 1`; no texture is loaded. -/
def SceneManager.new (pShaderManager : Option ShaderManager) (gl : List GLCall) :
    SceneManager :=
  { m_pShaderManager := pShaderManager
    m_textureIDs := List.replicate textureCapacity { tag := "/0", ID := 4294967295 }
    m_loadedTextures := 0
    m_objectMaterials := []
    gl := gl }

/-- The cell `m_textureIDs[index]`, for an `int` index. -/
def cellAt (cells : List TEXTURE_INFO) (index : Int) : Except Fault TEXTURE_INFO :=
  if 0 ≤ index then
    match cells[index.toNat]? with
    | some cell => Except.ok cell
    | none => Except.error (Fault.outOfBounds index)
  else Except.error (Fault.outOfBounds index)

/-- The loop of `FindTextureSlot`.  `remaining` is `m_loadedTextures - index`,
so `remaining = 0` is the exit `index >= m_loadedTextures`; a match sets
`textureSlot = index` and `bFound`, which ends the loop. -/
def FindTextureSlot.loop (cells : List TEXTURE_INFO) (tag : String) :
    Nat → Int → Nat → Except Fault Int
  | 0, textureSlot, _ => Except.ok textureSlot
  | remaining + 1, textureSlot, index =>
    match cells[index]? with
    | none => Except.error (Fault.outOfBounds index)
    | some cell =>
      if cell.tag = tag then Except.ok index
      else FindTextureSlot.loop cells tag remaining textureSlot (index + 1)

/-- `SceneManager::FindTextureSlot`. -/
def FindTextureSlot (s : SceneManager) (tag : String) : Except Fault Int :=
  FindTextureSlot.loop s.m_textureIDs tag s.m_loadedTextures.toNat (-1) 0

/-- The store `m_textureIDs[index].ID = textureID`. -/
def setCellID (cells : List TEXTURE_INFO) (index : Int) (textureID : Nat) :
    Except Fault (List TEXTURE_INFO) :=
  match cellAt cells index with
  | Except.error f => Except.error f
  | Except.ok cell => Except.ok (cells.set index.toNat { cell with ID := textureID })

/-- The store `m_textureIDs[index].tag = tag`. -/
def setCellTag (cells : List TEXTURE_INFO) (index : Int) (tag : String) :
    Except Fault (List TEXTURE_INFO) :=
  match cellAt cells index with
  | Except.error f => Except.error f
  | Except.ok cell => Except.ok (cells.set index.toNat { cell with tag := tag })

/-- The `glTexImage2D` call chosen by the channel count of the image: RGB for 3
channels, RGBA for 4, and no call (the "Not implemented" branch) otherwise. -/
def texImageCall (image : Image) : Option GLCall :=
  if image.colorChannels = 3 then
    some (GLCall.glTexImage2D GLenum.GL_TEXTURE_2D 0 GLenum.GL_RGB8 image.width image.height 0
      GLenum.GL_RGB GLenum.GL_UNSIGNED_BYTE image.data)
  else if image.colorChannels = 4 then
    some (GLCall.glTexImage2D GLenum.GL_TEXTURE_2D 0 GLenum.GL_RGBA8 image.width image.height 0
      GLenum.GL_RGBA GLenum.GL_UNSIGNED_BYTE image.data)
  else none

/-- `SceneManager::CreateGLTexture`: the returned flag and the state after the
call. -/
def CreateGLTexture (env : Env) (filename : String) (tag : String) (s : SceneManager) :
    Except Fault (Bool × SceneManager) :=
  match env.stbi_load filename with
  | some image =>
    let textureID := env.glGenTextures s.gl
    let gl1 := s.gl ++
      [GLCall.glGenTextures 1 textureID,
       GLCall.glBindTexture GLenum.GL_TEXTURE_2D textureID,
       GLCall.glTexParameteri GLenum.GL_TEXTURE_2D GLenum.GL_TEXTURE_WRAP_S GLenum.GL_REPEAT,
       GLCall.glTexParameteri GLenum.GL_TEXTURE_2D GLenum.GL_TEXTURE_WRAP_T GLenum.GL_REPEAT,
       GLCall.glTexParameteri GLenum.GL_TEXTURE_2D GLenum.GL_TEXTURE_MIN_FILTER GLenum.GL_LINEAR,
       GLCall.glTexParameteri GLenum.GL_TEXTURE_2D GLenum.GL_TEXTURE_MAG_FILTER GLenum.GL_LINEAR]
    match texImageCall image with
    | none => Except.ok (false, { s with gl := gl1 })
    | some upload =>
      let gl2 := gl1 ++
        [upload,
         GLCall.glGenerateMipmap GLenum.GL_TEXTURE_2D,
         GLCall.glBindTexture GLenum.GL_TEXTURE_2D 0]
      match setCellID s.m_textureIDs s.m_loadedTextures textureID with
      | Except.error f => Except.error f
      | Except.ok cells1 =>
        match setCellTag cells1 s.m_loadedTextures tag with
        | Except.error f => Except.error f
        | Except.ok cells2 =>
          Except.ok (true,
            { s with
              m_textureIDs := cells2
              m_loadedTextures := s.m_loadedTextures + 1
              gl := gl2 })
  | none => Except.ok (false, s)

/-- The loop of `BindGLTextures`; `remaining` is `m_loadedTextures - i`. -/
def BindGLTextures.loop (cells : List TEXTURE_INFO) :
    Nat → Nat → List GLCall → Except Fault (List GLCall)
  | 0, _, gl => Except.ok gl
  | remaining + 1, i, gl =>
    match cells[i]? with
    | none => Except.error (Fault.outOfBounds i)
    | some cell =>
      BindGLTextures.loop cells remaining (i + 1)
        (gl ++ [GLCall.glActiveTexture i, GLCall.glBindTexture GLenum.GL_TEXTURE_2D cell.ID])

/-- `SceneManager::BindGLTextures`. -/
def BindGLTextures (s : SceneManager) : Except Fault SceneManager :=
  match BindGLTextures.loop s.m_textureIDs s.m_loadedTextures.toNat 0 s.gl with
  | Except.error f => Except.error f
  | Except.ok gl => Except.ok { s with gl := gl }

/-- The loop of `DestroyGLTextures`; `remaining` is `m_loadedTextures - i`.  The
call in the body is `glGenTextures(1, &m_textureIDs[i].ID)`: the GL writes a new
texture name into the cell. -/
def DestroyGLTextures.loop (env : Env) :
    Nat → Nat → List TEXTURE_INFO → List GLCall →
      Except Fault (List TEXTURE_INFO × List GLCall)
  | 0, _, cells, gl => Except.ok (cells, gl)
  | remaining + 1, i, cells, gl =>
    match cells[i]? with
    | none => Except.error (Fault.outOfBounds i)
    | some cell =>
      let name := env.glGenTextures gl
      DestroyGLTextures.loop env remaining (i + 1)
        (cells.set i { cell with ID := name }) (gl ++ [GLCall.glGenTextures 1 name])

/-- `SceneManager::DestroyGLTextures`. -/
def DestroyGLTextures (env : Env) (s : SceneManager) : Except Fault SceneManager :=
  match DestroyGLTextures.loop env s.m_loadedTextures.toNat 0 s.m_textureIDs s.gl with
  | Except.error f => Except.error f
  | Except.ok (cells, gl) => Except.ok { s with m_textureIDs := cells, gl := gl }

/-- The conversion of a `GLuint` to `int` (two's complement, 32 bits). -/
def toInt32 (n : Nat) : Int :=
  if n % 2 ^ 32 < 2 ^ 31 then ((n % 2 ^ 32 : Nat) : Int)
  else ((n % 2 ^ 32 : Nat) : Int) - 2 ^ 32

/-- The loop of `FindTextureID`, as `FindTextureSlot.loop` with the cell's ID in
place of its index. -/
def FindTextureID.loop (cells : List TEXTURE_INFO) (tag : String) :
    Nat → Int → Nat → Except Fault Int
  | 0, textureID, _ => Except.ok textureID
  | remaining + 1, textureID, index =>
    match cells[index]? with
    | none => Except.error (Fault.outOfBounds index)
    | some cell =>
      if cell.tag = tag then Except.ok (toInt32 cell.ID)
      else FindTextureID.loop cells tag remaining textureID (index + 1)

/-- `SceneManager::FindTextureID`. -/
def FindTextureID (s : SceneManager) (tag : String) : Except Fault Int :=
  FindTextureID.loop s.m_textureIDs tag s.m_loadedTextures.toNat (-1) 0

/-- `SceneManager::SetShaderTexture`.  The `true` passed to `setIntValue` is the
integer 1. -/
def SetShaderTexture (s : SceneManager) (textureTag : String) : Except Fault SceneManager :=
  match s.m_pShaderManager with
  | none => Except.ok s
  | some sm =>
    let sm1 := sm.setIntValue g_UseTextureName 1
    match FindTextureSlot s textureTag with
    | Except.error f => Except.error f
    | Except.ok textureID =>
      Except.ok { s with
        m_pShaderManager := some (sm1.setSampler2DValue g_TextureValueName textureID) }

/-- The loop of `FindMaterial` over the records from `index` on: the first
record with the tag is copied into `material` (colours and shininess, not the
tag) and ends the loop. -/
def FindMaterial.loop (tag : String) :
    List OBJECT_MATERIAL → OBJECT_MATERIAL → OBJECT_MATERIAL
  | [], material => material
  | record :: rest, material =>
    if record.tag = tag then
      { material with
        diffuseColor := record.diffuseColor
        specularColor := record.specularColor
        shininess := record.shininess }
    else FindMaterial.loop tag rest material

/-- `SceneManager::FindMaterial`: the returned flag and the contents of the
reference parameter `material` after the call. -/
def FindMaterial (s : SceneManager) (tag : String) (material : OBJECT_MATERIAL) :
    Bool × OBJECT_MATERIAL :=
  if s.m_objectMaterials.length = 0 then (false, material)
  else (true, FindMaterial.loop tag s.m_objectMaterials material)

/-- `SceneManager::SetShaderMaterial`.  `material0` is the content of the local
`OBJECT_MATERIAL material` before `FindMaterial` fills it: the code does not
set it, so it is whatever the memory holds. -/
def SetShaderMaterial (s : SceneManager) (materialTag : String)
    (material0 : OBJECT_MATERIAL) : Except Fault SceneManager :=
  if s.m_objectMaterials.length > 0 then
    let found := FindMaterial s materialTag material0
    if found.1 = true then
      match s.m_pShaderManager with
      | none => Except.error Fault.nullShaderManager
      | some sm =>
        Except.ok { s with
          m_pShaderManager := some
            (((sm.setVec3Value "material.diffuseColor" found.2.diffuseColor).setVec3Value
                "material.specularColor" found.2.specularColor).setFloatValue
                "material.shininess" found.2.shininess) }
    else Except.ok s
  else Except.ok s

/-- A run of `CreateGLTexture` calls, one per (file name, tag) pair, the
returned flags dropped as the callers in the source drop them. -/
def createAll (env : Env) : List (String × String) → SceneManager → Except Fault SceneManager
  | [], s => Except.ok s
  | (filename, tag) :: rest, s =>
    match CreateGLTexture env filename tag s with
    | Except.error f => Except.error f
    | Except.ok (_, s1) => createAll env rest s1

/-- The `push_back` on `m_objectMaterials`. -/
def push_back (s : SceneManager) (material : OBJECT_MATERIAL) : SceneManager :=
  { s with m_objectMaterials := s.m_objectMaterials ++ [material] }

/-- `SceneManager::DefineObjectMaterials`: five records are pushed, in the
order metal, wooden, glass, plate, book.  The record `rubberMaterial` is filled
in by the source but never pushed. -/
def DefineObjectMaterials (s : SceneManager) : SceneManager :=
  let goldMaterial : OBJECT_MATERIAL :=
    { diffuseColor := (0.8, 0.8, 0.0), specularColor := (1.0, 1.0, 0.8),
      shininess := 60.0, tag := "metal" }
  let s := push_back s goldMaterial
  let woodMaterial : OBJECT_MATERIAL :=
    { diffuseColor := (0.4, 0.2, 0.1), specularColor := (0.2, 0.2, 0.2),
      shininess := 0.1, tag := "wooden" }
  let s := push_back s woodMaterial
  let glassMaterial : OBJECT_MATERIAL :=
    { diffuseColor := (0.2, 0.2, 0.2), specularColor := (1.0, 1.0, 1.0),
      shininess := 95.0, tag := "glass" }
  let s := push_back s glassMaterial
  let plateMaterial : OBJECT_MATERIAL :=
    { diffuseColor := (0.4, 0.4, 0.4), specularColor := (0.2, 0.2, 0.2),
      shininess := 30.0, tag := "plate" }
  let s := push_back s plateMaterial
  let bookMaterial : OBJECT_MATERIAL :=
    { diffuseColor := (0.6, 0.3, 0.1), specularColor := (0.2, 0.2, 0.2),
      shininess := 10.0, tag := "book" }
  push_back s bookMaterial

/-! ## Vocabulary of the statements -/

/-- The tag stored in cell `i` of `m_textureIDs`, if the array has a cell `i`. -/
def tagAt (s : SceneManager) (i : Nat) : Option String :=
  (s.m_textureIDs[i]?).map TEXTURE_INFO.tag

/-- The registry part of the state is the same in `s` and `s1`: the counter and
every cell of the array. -/
def sameRegistry (s s1 : SceneManager) : Prop :=
  s1.m_loadedTextures = s.m_loadedTextures ∧ s1.m_textureIDs = s.m_textureIDs

/-- The GL calls `CreateGLTexture` issues before it looks at the channel count. -/
def glAfterGen (env : Env) (s : SceneManager) : List GLCall :=
  s.gl ++
    [GLCall.glGenTextures 1 (env.glGenTextures s.gl),
     GLCall.glBindTexture GLenum.GL_TEXTURE_2D (env.glGenTextures s.gl),
     GLCall.glTexParameteri GLenum.GL_TEXTURE_2D GLenum.GL_TEXTURE_WRAP_S GLenum.GL_REPEAT,
     GLCall.glTexParameteri GLenum.GL_TEXTURE_2D GLenum.GL_TEXTURE_WRAP_T GLenum.GL_REPEAT,
     GLCall.glTexParameteri GLenum.GL_TEXTURE_2D GLenum.GL_TEXTURE_MIN_FILTER GLenum.GL_LINEAR,
     GLCall.glTexParameteri GLenum.GL_TEXTURE_2D GLenum.GL_TEXTURE_MAG_FILTER GLenum.GL_LINEAR]

/-- The state a successful `CreateGLTexture` leaves: the cell at the counter
holds the tag and the generated name, the counter is one higher. -/
def registered (env : Env) (tag : String) (upload : GLCall) (s : SceneManager) :
    SceneManager :=
  { s with
    m_textureIDs :=
      s.m_textureIDs.set s.m_loadedTextures.toNat
        { tag := tag, ID := env.glGenTextures s.gl }
    m_loadedTextures := s.m_loadedTextures + 1
    gl := glAfterGen env s ++
      [upload,
       GLCall.glGenerateMipmap GLenum.GL_TEXTURE_2D,
       GLCall.glBindTexture GLenum.GL_TEXTURE_2D 0] }

/-! ## Concrete inputs -/

/-- Whether a GL call is a `glGenTextures`. -/
def GLCall.isGen : GLCall → Bool
  | GLCall.glGenTextures _ _ => true
  | _ => false

/-- A sample environment: `textures/missing.jpg` does not decode,
`textures/gray.png` decodes to one channel, every other file to a 2 x 2 RGB
image; the GL hands out the names 1, 2, 3, ... in turn. -/
def sampleEnv : Env :=
  { stbi_load := fun filename =>
      if filename = "textures/missing.jpg" then none
      else if filename = "textures/gray.png" then
        some { width := 2, height := 2, colorChannels := 1, data := [] }
      else some { width := 2, height := 2, colorChannels := 3, data := [] }
    glGenTextures := fun gl => (gl.filter GLCall.isGen).length + 1 }

/-- A shader manager that has received no call yet. -/
def freshShader : ShaderManager := { calls := [] }

/-- A freshly constructed manager with a shader manager attached. -/
def fresh : SceneManager := SceneManager.new (some freshShader) []

/-- The upload call `CreateGLTexture` issues for the RGB image of `sampleEnv`. -/
def sampleUpload : GLCall :=
  GLCall.glTexImage2D GLenum.GL_TEXTURE_2D 0 GLenum.GL_RGB8 2 2 0 GLenum.GL_RGB
    GLenum.GL_UNSIGNED_BYTE []

/-- The state of `fresh` after one successful load under the tag "wood". -/
def loadedOnce : SceneManager := registered sampleEnv "wood" sampleUpload fresh

/-- The state of `loadedOnce` after a second successful load under the same
tag. -/
def loadedTwice : SceneManager := registered sampleEnv "wood" sampleUpload loadedOnce

/-- The manager `fresh` after `DefineObjectMaterials`. -/
def withMaterials : SceneManager := DefineObjectMaterials fresh

/-- Sixteen successful loads, one per cell of the array. -/
def sixteenLoads : List (String × String) :=
  List.replicate 16 ("textures/wood.jpg", "wood")

/-! ## Vocabulary of the later statements -/

/-- The GL calls `BindGLTextures` issues for the `count` cells from `start` on:
for each cell the activation of the unit with the cell's index and the binding
of the cell's handle. -/
def unitBindings (cells : List TEXTURE_INFO) : Nat → Nat → List GLCall
  | _, 0 => []
  | start, count + 1 =>
    match cells[start]? with
    | none => []
    | some cell =>
      [GLCall.glActiveTexture start, GLCall.glBindTexture GLenum.GL_TEXTURE_2D cell.ID] ++
        unitBindings cells (start + 1) count

/-! ## Rendering

The render functions are straight-line code (with one nested counting loop):
they assign literal values to locals and call `SetTransformations`,
`SetShaderColor`, `SetShaderTexture`, `SetTextureUVScale`, `SetShaderMaterial`
and the draw functions of `m_basicMeshes`, never looking at a result.  A render
function is therefore embedded in two steps: its body, statement by statement,
as a program that emits the calls it makes (`Emit`), and `performAll`, which
carries the calls out on the state.  The arithmetic on `float` values in the
bodies (the monitor dimensions, the key positions) is done over the rationals.
-/

/-- The name of the model matrix uniform (`g_ModelName`). -/
def g_ModelName : String := "model"

/-- The name of the object colour uniform (`g_ColorValueName`). -/
def g_ColorValueName : String := "objectColor"

/-- `SceneManager::SetTransformations`: the model matrix is sent to the shader
manager, if there is one. -/
def SetTransformations (s : SceneManager) (scaleXYZ : Vec3)
    (XrotationDegrees YrotationDegrees ZrotationDegrees : ℚ) (positionXYZ : Vec3) :
    SceneManager :=
  let modelView : ModelView :=
    { scaleXYZ := scaleXYZ
      XrotationDegrees := XrotationDegrees
      YrotationDegrees := YrotationDegrees
      ZrotationDegrees := ZrotationDegrees
      positionXYZ := positionXYZ }
  match s.m_pShaderManager with
  | none => s
  | some sm => { s with m_pShaderManager := some (sm.setMat4Value g_ModelName modelView) }

/-- `SceneManager::SetShaderColor`.  The `false` passed to `setIntValue` is the
integer 0. -/
def SetShaderColor (s : SceneManager)
    (redColorValue greenColorValue blueColorValue alphaValue : ℚ) : SceneManager :=
  match s.m_pShaderManager with
  | none => s
  | some sm =>
    { s with
      m_pShaderManager := some
        ((sm.setIntValue g_UseTextureName 0).setVec4Value g_ColorValueName
          (redColorValue, greenColorValue, blueColorValue, alphaValue)) }

/-- `SceneManager::SetTextureUVScale`. -/
def SetTextureUVScale (s : SceneManager) (u v : ℚ) : SceneManager :=
  match s.m_pShaderManager with
  | none => s
  | some sm => { s with m_pShaderManager := some (sm.setVec2Value "UVscale" (u, v)) }

/-- Modelled from the spec: the draw functions of the `ShapeMeshes` class (its
header and source are not part of the sources at hand) that the render
functions call, "invoke mesh draw".  `DrawCylinderMeshWith` is the call of
`DrawCylinderMesh` with three explicit flags. -/
inductive MeshCall where
  | DrawPlaneMesh
  | DrawBoxMesh
  | DrawCylinderMesh
  | DrawCylinderMeshWith (flag1 flag2 flag3 : Bool)
  | DrawConeMesh
  | DrawHalfSphereMesh
deriving DecidableEq, Repr

/-- A call a render function makes: on the scene manager itself or, for `Draw`,
on `m_basicMeshes`. -/
inductive Call where
  | SetTransformations (scaleXYZ : Vec3)
      (XrotationDegrees YrotationDegrees ZrotationDegrees : ℚ) (positionXYZ : Vec3)
  | SetShaderColor (redColorValue greenColorValue blueColorValue alphaValue : ℚ)
  | SetShaderTexture (textureTag : String)
  | SetTextureUVScale (u v : ℚ)
  | SetShaderMaterial (materialTag : String)
  | Draw (mesh : MeshCall)
deriving DecidableEq, Repr

/-- A draw received by `m_basicMeshes`, with the uniform assignments the shader
manager had received when the draw was issued (none without a shader
manager). -/
structure DrawRecord where
  mesh : MeshCall
  uniforms : List UniformCall
deriving DecidableEq, Repr

/-- The state the render functions work on: the scene manager and the record of
the draws made on `m_basicMeshes`, oldest first. -/
structure RenderState where
  scene : SceneManager
  m_basicMeshes : List DrawRecord
deriving DecidableEq, Repr

/-- The uniform assignments the shader manager has received so far. -/
def uniformCalls (s : SceneManager) : List UniformCall :=
  match s.m_pShaderManager with
  | none => []
  | some sm => sm.calls

/-- Carrying out one call.  `material0` is the content of the uninitialised
local of `SetShaderMaterial`. -/
def perform (material0 : OBJECT_MATERIAL) (c : Call) (r : RenderState) :
    Except Fault RenderState :=
  match c with
  | Call.SetTransformations scaleXYZ x y z positionXYZ =>
    Except.ok { r with scene := SetTransformations r.scene scaleXYZ x y z positionXYZ }
  | Call.SetShaderColor red green blue alpha =>
    Except.ok { r with scene := SetShaderColor r.scene red green blue alpha }
  | Call.SetShaderTexture textureTag =>
    match SetShaderTexture r.scene textureTag with
    | Except.error f => Except.error f
    | Except.ok scene => Except.ok { r with scene := scene }
  | Call.SetTextureUVScale u v =>
    Except.ok { r with scene := SetTextureUVScale r.scene u v }
  | Call.SetShaderMaterial materialTag =>
    match SetShaderMaterial r.scene materialTag material0 with
    | Except.error f => Except.error f
    | Except.ok scene => Except.ok { r with scene := scene }
  | Call.Draw mesh =>
    Except.ok { r with
      m_basicMeshes := r.m_basicMeshes ++ [{ mesh := mesh, uniforms := uniformCalls r.scene }] }

/-- Carrying out a sequence of calls in order. -/
def performAll (material0 : OBJECT_MATERIAL) : List Call → RenderState → Except Fault RenderState
  | [], r => Except.ok r
  | c :: rest, r =>
    match perform material0 c r with
    | Except.error f => Except.error f
    | Except.ok r1 => performAll material0 rest r1

/-- A program that emits calls: the calls made so far are the state. -/
abbrev Emit := StateM (List Call)

/-- Emitting one call. -/
def call (c : Call) : Emit Unit :=
  modify (fun calls => calls ++ [c])

/-- A call on `m_basicMeshes`. -/
def m_basicMeshes (mesh : MeshCall) : Emit Unit :=
  call (Call.Draw mesh)

/-- The calls a program emits, in program order. -/
def callsOf (program : Emit Unit) : List Call :=
  (Id.run (program.run [])).2

/-- Running a render function: its calls are carried out in order. -/
def render (material0 : OBJECT_MATERIAL) (program : Emit Unit) (r : RenderState) :
    Except Fault RenderState :=
  performAll material0 (callsOf program) r

/-- `SceneManager::RenderBackDrop`. -/
def RenderBackDrop : Emit Unit := do
  let mut scaleXYZ : Vec3 := (0, 0, 0)
  let mut XrotationDegrees : ℚ := 0.0
  let mut YrotationDegrees : ℚ := 0.0
  let mut ZrotationDegrees : ℚ := 0.0
  let mut positionXYZ : Vec3 := (0, 0, 0)
  scaleXYZ := (50.0, 50.0, 50.0)
  XrotationDegrees := 90.0
  positionXYZ := (0.0, 0.0, -10.0)
  call (.SetTransformations scaleXYZ XrotationDegrees YrotationDegrees ZrotationDegrees positionXYZ)
  call (.SetShaderTexture "backdrop")
  call (.SetTextureUVScale 1.0 1.0)
  m_basicMeshes .DrawPlaneMesh

/-- `SceneManager::RenderDesk`: the top of the desk and its two sides. -/
def RenderDesk : Emit Unit := do
  let mut scaleXYZ : Vec3 := (0, 0, 0)
  let mut XrotationDegrees : ℚ := 0.0
  let mut YrotationDegrees : ℚ := 0.0
  let mut ZrotationDegrees : ℚ := 0.0
  let mut positionXYZ : Vec3 := (0, 0, 0)
  scaleXYZ := (40.0, 1.0, 20.0)
  XrotationDegrees := 0.0
  YrotationDegrees := 0.0
  ZrotationDegrees := 0.0
  positionXYZ := (0.0, -0.5, 0.0)
  call (.SetTransformations scaleXYZ XrotationDegrees YrotationDegrees ZrotationDegrees positionXYZ)
  call (.SetShaderColor 1 1 1 1)
  call (.SetShaderTexture "knife")
  call (.SetTextureUVScale 1.0 1.0)
  call (.SetShaderMaterial "wooden")
  m_basicMeshes .DrawBoxMesh
  scaleXYZ := (8.0, 12.0, 10.0)
  XrotationDegrees := 0.0
  YrotationDegrees := 0.0
  ZrotationDegrees := 0.0
  positionXYZ := (-15.0, -6.5, 0.0)
  call (.SetTransformations scaleXYZ XrotationDegrees YrotationDegrees ZrotationDegrees positionXYZ)
  call (.SetShaderColor 1 1 1 1)
  call (.SetShaderTexture "wood")
  call (.SetTextureUVScale 1.0 1.0)
  call (.SetShaderMaterial "wooden")
  m_basicMeshes .DrawBoxMesh
  scaleXYZ := (8.0, 12.0, 10.0)
  XrotationDegrees := 0.0
  YrotationDegrees := 0.0
  ZrotationDegrees := 0.0
  positionXYZ := (15.0, -6.5, 0.0)
  call (.SetTransformations scaleXYZ XrotationDegrees YrotationDegrees ZrotationDegrees positionXYZ)
  call (.SetShaderColor 1 1 1 1)
  call (.SetShaderTexture "wood")
  call (.SetTextureUVScale 1.0 1.0)
  call (.SetShaderMaterial "wooden")
  m_basicMeshes .DrawBoxMesh

/-- `SceneManager::RenderPhoneHolder`: base, body, connector, top of the holder,
body of the holder and its four bottom pieces. -/
def RenderPhoneHolder : Emit Unit := do
  let mut scaleXYZ : Vec3 := (0, 0, 0)
  let mut XrotationDegrees : ℚ := 0.0
  let mut YrotationDegrees : ℚ := 0.0
  let mut ZrotationDegrees : ℚ := 0.0
  let mut positionXYZ : Vec3 := (0, 0, 0)
  scaleXYZ := (2.0, 0.2, 2.0)
  XrotationDegrees := 0.0
  YrotationDegrees := -45.0
  ZrotationDegrees := 0.0
  positionXYZ := (1.0, 0.0, 1.0)
  call (.SetTransformations scaleXYZ XrotationDegrees YrotationDegrees ZrotationDegrees positionXYZ)
  call (.SetShaderTexture "silverBase")
  call (.SetTextureUVScale 1.0 1.0)
  m_basicMeshes .DrawBoxMesh
  scaleXYZ := (0.15, 3.0, 0.1)
  XrotationDegrees := 0.0
  YrotationDegrees := -45.0
  ZrotationDegrees := 0.0
  positionXYZ := (1.5, 0.0, 0.5)
  call (.SetTransformations scaleXYZ XrotationDegrees YrotationDegrees ZrotationDegrees positionXYZ)
  call (.SetShaderTexture "metallicSilver")
  call (.SetTextureUVScale 1.0 1.0)
  call (.SetShaderMaterial "glass")
  m_basicMeshes .DrawCylinderMesh
  scaleXYZ := (0.2, 0.2, 0.2)
  XrotationDegrees := 0.0
  YrotationDegrees := -45.0
  ZrotationDegrees := 0.0
  positionXYZ := (1.4, 2.8, 0.6)
  call (.SetTransformations scaleXYZ XrotationDegrees YrotationDegrees ZrotationDegrees positionXYZ)
  call (.SetShaderTexture "silverBase")
  call (.SetTextureUVScale 1.0 1.0)
  call (.SetShaderMaterial "glass")
  m_basicMeshes .DrawBoxMesh
  scaleXYZ := (0.1, 1.5, 0.1)
  XrotationDegrees := 90.0
  YrotationDegrees := 45.0
  ZrotationDegrees := 0.0
  positionXYZ := (0.78, 2.8, 0.1)
  call (.SetTransformations scaleXYZ XrotationDegrees YrotationDegrees ZrotationDegrees positionXYZ)
  call (.SetShaderTexture "body")
  call (.SetTextureUVScale 1.0 1.0)
  call (.SetShaderMaterial "glass")
  m_basicMeshes .DrawCylinderMesh
  scaleXYZ := (1.5, 0.05, 2.0)
  XrotationDegrees := 60.0
  YrotationDegrees := -45.0
  ZrotationDegrees := 0.0
  positionXYZ := (0.95, 2.0, 0.99065)
  call (.SetTransformations scaleXYZ XrotationDegrees YrotationDegrees ZrotationDegrees positionXYZ)
  call (.SetShaderTexture "drywall")
  call (.SetTextureUVScale 1.0 1.0)
  call (.SetShaderMaterial "glass")
  m_basicMeshes .DrawBoxMesh
  scaleXYZ := (0.2, 0.05, 0.2)
  XrotationDegrees := -20.0
  YrotationDegrees := -45.0
  ZrotationDegrees := 0.0
  positionXYZ := (0.12, 1.23, 1.0)
  call (.SetTransformations scaleXYZ XrotationDegrees YrotationDegrees ZrotationDegrees positionXYZ)
  call (.SetShaderTexture "grayHolder")
  call (.SetTextureUVScale 1.0 1.0)
  call (.SetShaderMaterial "plate")
  m_basicMeshes .DrawBoxMesh
  scaleXYZ := (0.2, 0.05, 0.2)
  XrotationDegrees := -20.0
  YrotationDegrees := -45.0
  ZrotationDegrees := 0.0
  positionXYZ := (0.95, 1.23, 1.8)
  call (.SetTransformations scaleXYZ XrotationDegrees YrotationDegrees ZrotationDegrees positionXYZ)
  call (.SetShaderTexture "grayHolder")
  call (.SetTextureUVScale 1.0 1.0)
  call (.SetShaderMaterial "plate")
  m_basicMeshes .DrawBoxMesh
  scaleXYZ := (0.2, 0.05, 0.2)
  XrotationDegrees := -125.0
  YrotationDegrees := -45.0
  ZrotationDegrees := 0.0
  positionXYZ := (0.12, 1.35, 1.0)
  call (.SetTransformations scaleXYZ XrotationDegrees YrotationDegrees ZrotationDegrees positionXYZ)
  call (.SetShaderTexture "grayHolder")
  call (.SetTextureUVScale 1.0 1.0)
  call (.SetShaderMaterial "plate")
  m_basicMeshes .DrawBoxMesh
  scaleXYZ := (0.2, 0.05, 0.2)
  XrotationDegrees := -125.0
  YrotationDegrees := -45.0
  ZrotationDegrees := 0.0
  positionXYZ := (0.93, 1.35, 1.8)
  call (.SetTransformations scaleXYZ XrotationDegrees YrotationDegrees ZrotationDegrees positionXYZ)
  call (.SetShaderTexture "grayHolder")
  call (.SetTextureUVScale 1.0 1.0)
  call (.SetShaderMaterial "plate")
  m_basicMeshes .DrawBoxMesh

/-- `SceneManager::RenderBook`. -/
def RenderBook : Emit Unit := do
  let mut scaleXYZ : Vec3 := (0, 0, 0)
  let mut XrotationDegrees : ℚ := 0.0
  let mut YrotationDegrees : ℚ := 0.0
  let mut ZrotationDegrees : ℚ := 0.0
  let mut positionXYZ : Vec3 := (0, 0, 0)
  scaleXYZ := (3.0, 0.5, 2.0)
  XrotationDegrees := 0.0
  YrotationDegrees := 45.0
  ZrotationDegrees := 0.0
  positionXYZ := (-7.0, 0.25, 1.8)
  call (.SetTransformations scaleXYZ XrotationDegrees YrotationDegrees ZrotationDegrees positionXYZ)
  call (.SetShaderTexture "book")
  call (.SetTextureUVScale 1.0 1.0)
  call (.SetShaderMaterial "book")
  m_basicMeshes .DrawBoxMesh

/-- `SceneManager::RenderWaterBottle`: body, top and cap. -/
def RenderWaterBottle : Emit Unit := do
  let mut scaleXYZ : Vec3 := (0, 0, 0)
  let mut XrotationDegrees : ℚ := 0.0
  let mut YrotationDegrees : ℚ := 0.0
  let mut ZrotationDegrees : ℚ := 0.0
  let mut positionXYZ : Vec3 := (0, 0, 0)
  scaleXYZ := (1.0, 2.5, 1.0)
  positionXYZ := (-2.5, 0.0, 1.8)
  call (.SetTransformations scaleXYZ XrotationDegrees YrotationDegrees ZrotationDegrees positionXYZ)
  call (.SetShaderTexture "waterBottle")
  call (.SetTextureUVScale 1.0 1.0)
  call (.SetShaderMaterial "glass")
  m_basicMeshes .DrawCylinderMesh
  scaleXYZ := (1.0, 1.4, 1.0)
  positionXYZ := (-2.5, 2.5, 1.8)
  call (.SetTransformations scaleXYZ XrotationDegrees YrotationDegrees ZrotationDegrees positionXYZ)
  call (.SetShaderTexture "waterBottle")
  call (.SetTextureUVScale 1.0 1.0)
  call (.SetShaderMaterial "glass")
  m_basicMeshes .DrawConeMesh
  scaleXYZ := (0.3, 0.5, 0.3)
  positionXYZ := (-2.5, 3.393, 1.8)
  call (.SetTransformations scaleXYZ XrotationDegrees YrotationDegrees ZrotationDegrees positionXYZ)
  call (.SetShaderTexture "waterBottle")
  call (.SetTextureUVScale 1.0 1.0)
  call (.SetShaderMaterial "glass")
  m_basicMeshes .DrawCylinderMesh

/-- `SceneManager::RenderMonitors`: panel, base and handle of the left monitor, the
same of the right monitor, then the two screens. -/
def RenderMonitors : Emit Unit := do
  let mut scaleXYZ : Vec3 := (0, 0, 0)
  let mut XrotationDegrees : ℚ := 0.0
  let mut YrotationDegrees : ℚ := 0.0
  let mut ZrotationDegrees : ℚ := 0.0
  let mut positionXYZ : Vec3 := (0, 0, 0)
  let mut monitorWidth : ℚ := 27.9 * 0.4
  let mut monitorHeight : ℚ := 15.7 * 0.4
  let mut monitorDepth : ℚ := 2.0 * 0.4
  scaleXYZ := (monitorWidth, monitorHeight, monitorDepth)
  XrotationDegrees := 0.0
  YrotationDegrees := 15.0
  ZrotationDegrees := 0.0
  positionXYZ := (-8.0, 6.0, -4.0)
  call (.SetTransformations scaleXYZ XrotationDegrees YrotationDegrees ZrotationDegrees positionXYZ)
  call (.SetShaderTexture "keyboard")
  call (.SetTextureUVScale 1.0 1.0)
  call (.SetShaderMaterial "plate")
  m_basicMeshes .DrawBoxMesh
  scaleXYZ := (4.0, 0.2, 4.0)
  XrotationDegrees := 0.0
  YrotationDegrees := 15.0
  ZrotationDegrees := 0.0
  positionXYZ := (-8.0, 0.2, -4.5)
  call (.SetTransformations scaleXYZ XrotationDegrees YrotationDegrees ZrotationDegrees positionXYZ)
  call (.SetShaderTexture "keyboard")
  call (.SetTextureUVScale 1.0 1.0)
  call (.SetShaderMaterial "plate")
  m_basicMeshes .DrawBoxMesh
  scaleXYZ := (1.0, 4.0, 1.0)
  XrotationDegrees := 0.0
  YrotationDegrees := 15.0
  ZrotationDegrees := 0.0
  positionXYZ := (-8.0, 2.0, -4.8)
  call (.SetTransformations scaleXYZ XrotationDegrees YrotationDegrees ZrotationDegrees positionXYZ)
  call (.SetShaderTexture "keyboard")
  call (.SetTextureUVScale 1.0 1.0)
  call (.SetShaderMaterial "plate")
  m_basicMeshes .DrawBoxMesh
  monitorWidth := 27.9 * 0.4
  monitorHeight := 15.7 * 0.4
  monitorDepth := 2.0 * 0.4
  scaleXYZ := (monitorWidth, monitorHeight, monitorDepth)
  XrotationDegrees := 0.0
  YrotationDegrees := -15.0
  ZrotationDegrees := 0.0
  positionXYZ := (8.0, 6.0, -4.0)
  call (.SetTransformations scaleXYZ XrotationDegrees YrotationDegrees ZrotationDegrees positionXYZ)
  call (.SetShaderTexture "keyboard")
  call (.SetTextureUVScale 1.0 1.0)
  call (.SetShaderMaterial "plate")
  m_basicMeshes .DrawBoxMesh
  scaleXYZ := (4.0, 0.2, 4.0)
  XrotationDegrees := 0.0
  YrotationDegrees := -15.0
  ZrotationDegrees := 0.0
  positionXYZ := (8.0, 0.2, -4.5)
  call (.SetTransformations scaleXYZ XrotationDegrees YrotationDegrees ZrotationDegrees positionXYZ)
  call (.SetShaderTexture "keyboard")
  call (.SetTextureUVScale 1.0 1.0)
  call (.SetShaderMaterial "plate")
  m_basicMeshes .DrawBoxMesh
  scaleXYZ := (1.0, 4.0, 1.0)
  XrotationDegrees := 0.0
  YrotationDegrees := -15.0
  ZrotationDegrees := 0.0
  positionXYZ := (8.0, 2.0, -4.8)
  call (.SetTransformations scaleXYZ XrotationDegrees YrotationDegrees ZrotationDegrees positionXYZ)
  call (.SetShaderTexture "keyboard")
  call (.SetTextureUVScale 1.0 1.0)
  call (.SetShaderMaterial "plate")
  m_basicMeshes .DrawBoxMesh
  scaleXYZ := (10.0, 5.0, 0.1)
  XrotationDegrees := 0.0
  YrotationDegrees := -15.0
  ZrotationDegrees := 0.0
  positionXYZ := (7.9, 6.0, -3.66)
  call (.SetTransformations scaleXYZ XrotationDegrees YrotationDegrees ZrotationDegrees positionXYZ)
  call (.SetShaderColor 1.0 1.0 1.0 1.0)
  m_basicMeshes .DrawBoxMesh
  scaleXYZ := (10.0, 5.0, 0.1)
  XrotationDegrees := 0.0
  YrotationDegrees := 15.0
  ZrotationDegrees := 0.0
  positionXYZ := (-7.9, 6.0, -3.66)
  call (.SetTransformations scaleXYZ XrotationDegrees YrotationDegrees ZrotationDegrees positionXYZ)
  call (.SetShaderColor 1.0 1.0 1.0 1.0)
  m_basicMeshes .DrawBoxMesh

/-- `SceneManager::RenderMouse`: base and top. -/
def RenderMouse : Emit Unit := do
  let mut scaleXYZ : Vec3 := (0, 0, 0)
  let mut XrotationDegrees : ℚ := 0.0
  let mut YrotationDegrees : ℚ := -45.0
  let mut ZrotationDegrees : ℚ := 0.0
  let mut positionXYZ : Vec3 := (0, 0, 0)
  scaleXYZ := (1.5, 0.5, 1.0)
  positionXYZ := (7.0, 0.25, 6.0)
  call (.SetTransformations scaleXYZ XrotationDegrees YrotationDegrees ZrotationDegrees positionXYZ)
  call (.SetShaderTexture "mouse")
  call (.SetTextureUVScale 1.0 1.0)
  call (.SetShaderMaterial "plate")
  m_basicMeshes (.DrawCylinderMeshWith false true true)
  scaleXYZ := (1.5, 0.5, 1.0)
  positionXYZ := (7.0, 0.75, 6.0)
  call (.SetTransformations scaleXYZ XrotationDegrees YrotationDegrees ZrotationDegrees positionXYZ)
  call (.SetShaderTexture "mouse")
  call (.SetTextureUVScale 1.0 1.0)
  call (.SetShaderMaterial "plate")
  m_basicMeshes .DrawHalfSphereMesh

/-- `SceneManager::RenderKeyBoard`: the base, then the keys, row by row. -/
def RenderKeyBoard : Emit Unit := do
  let mut scaleXYZ : Vec3 := (0, 0, 0)
  let mut XrotationDegrees : ℚ := 0.0
  let mut YrotationDegrees : ℚ := 0.0
  let mut ZrotationDegrees : ℚ := 0.0
  let mut positionXYZ : Vec3 := (0, 0, 0)
  scaleXYZ := (10.2, 0.5, 4.0)
  positionXYZ := (0.1, 0.25, 6.0)
  call (.SetTransformations scaleXYZ XrotationDegrees YrotationDegrees ZrotationDegrees positionXYZ)
  call (.SetShaderTexture "keyboard")
  call (.SetTextureUVScale 1.0 1.0)
  call (.SetShaderMaterial "plate")
  m_basicMeshes .DrawBoxMesh
  let keyWidth : ℚ := 0.8
  let keyHeight : ℚ := 0.2
  let keyDepth : ℚ := 0.8
  let spacing : ℚ := 0.05
  let numRows : Nat := 5
  let numCols : Nat := 12
  let startX : ℚ := -5.0 + keyWidth / 2.0
  let startY : ℚ := 0.2 + 0.25 + keyHeight / 2.0
  let startZ : ℚ := 8.0 - keyDepth / 2.0
  for row in List.range numRows do
    for col in List.range numCols do
      scaleXYZ := (keyWidth, keyHeight, keyDepth)
      positionXYZ :=
        (startX + col * (keyWidth + spacing), startY, startZ - row * (keyDepth + spacing))
      call (.SetTransformations scaleXYZ XrotationDegrees YrotationDegrees ZrotationDegrees positionXYZ)
      call (.SetShaderTexture "body")
      call (.SetTextureUVScale 1.0 1.0)
      call (.SetShaderMaterial "plate")
      m_basicMeshes .DrawBoxMesh

/-- `SceneManager::RenderScene`. -/
def RenderScene : Emit Unit := do
  RenderWaterBottle
  RenderBackDrop
  RenderPhoneHolder
  RenderDesk
  RenderBook
  RenderMonitors
  RenderMouse
  RenderKeyBoard

/-- The thirteen `CreateGLTexture` calls of `LoadSceneTextures`, as (file name,
tag) pairs in call order. -/
def sceneTextures : List (String × String) :=
  [("textures/silverBase.jpg", "silverBase"),
   ("textures/metallicSilver.jpg", "metallicSilver"),
   ("textures/rubber.jpg", "rubber"),
   ("textures/grayHolders.jpg", "grayHolder"),
   ("textures/rusticwood.jpg", "wood"),
   ("textures/knife_handle.jpg", "knife"),
   ("textures/stainedglass.jpg", "stained"),
   ("textures/backdrop.jpg", "backdrop"),
   ("textures/keyboardBase.jpg", "keyboard"),
   ("textures/mouse.jpg", "mouse"),
   ("textures/waterBottle.jpg", "waterBottle"),
   ("textures/book.jpg", "book"),
   ("textures/drywall.jpg", "body")]

/-- `SceneManager::LoadSceneTextures`: the thirteen loads, their flags dropped,
then `BindGLTextures`. -/
def LoadSceneTextures (env : Env) (s : SceneManager) : Except Fault SceneManager :=
  match createAll env sceneTextures s with
  | Except.error f => Except.error f
  | Except.ok s1 => BindGLTextures s1

/-! ## Vocabulary of the statements on rendering -/

/-- The draws among the calls, each with the arguments of the last
`SetTransformations` call before it; `current` holds those of the last such
call before the first call of the list. -/
def transformedDraws : Option ModelView → List Call → List (MeshCall × Option ModelView)
  | _, [] => []
  | _, Call.SetTransformations scaleXYZ x y z positionXYZ :: rest =>
    transformedDraws
      (some { scaleXYZ := scaleXYZ, XrotationDegrees := x, YrotationDegrees := y,
              ZrotationDegrees := z, positionXYZ := positionXYZ }) rest
  | current, Call.Draw mesh :: rest => (mesh, current) :: transformedDraws current rest
  | current, _ :: rest => transformedDraws current rest

/-- The value of the model matrix uniform after the given assignments: that of
the last `setMat4Value` on `g_ModelName`. -/
def modelInForce (calls : List UniformCall) : Option ModelView :=
  calls.foldl
    (fun current c =>
      match c with
      | UniformCall.setMat4Value name value => if name = g_ModelName then some value else current
      | _ => current)
    none

/-- The value of the texture sampler uniform after the given assignments. -/
def samplerInForce (calls : List UniformCall) : Option Int :=
  calls.foldl
    (fun current c =>
      match c with
      | UniformCall.setSampler2DValue name value =>
        if name = g_TextureValueName then some value else current
      | _ => current)
    none

/-- The value of the texturing switch after the given assignments. -/
def useTextureInForce (calls : List UniformCall) : Option Int :=
  calls.foldl
    (fun current c =>
      match c with
      | UniformCall.setIntValue name value =>
        if name = g_UseTextureName then some value else current
      | _ => current)
    none

/-- What the recorded draws show: each mesh with the model matrix in force when
it was drawn. -/
def observedDraws (r : RenderState) : List (MeshCall × Option ModelView) :=
  r.m_basicMeshes.map (fun d => (d.mesh, modelInForce d.uniforms))

/-- The calls of a render function cut at its draws: for each draw, the calls
made since the preceding draw (or since the start of the function).  `pending`
holds the calls seen since the last draw. -/
def segmentsFrom : List Call → List Call → List (List Call)
  | _, [] => []
  | pending, Call.Draw _ :: rest => pending :: segmentsFrom [] rest
  | pending, c :: rest => segmentsFrom (pending ++ [c]) rest

/-- The segments of a render function, one per draw. -/
def segments (program : Emit Unit) : List (List Call) :=
  segmentsFrom [] (callsOf program)

/-- How far a segment gets through the pattern `SetTransformations`, then
`SetShaderTexture`, then `SetShaderMaterial`, starting at the given stage. -/
def patternStage : Nat → List Call → Nat
  | stage, [] => stage
  | 0, Call.SetTransformations _ _ _ _ _ :: rest => patternStage 1 rest
  | 1, Call.SetShaderTexture _ :: rest => patternStage 2 rest
  | 2, Call.SetShaderMaterial _ :: rest => patternStage 3 rest
  | stage, _ :: rest => patternStage stage rest

/-- The segment contains, in this order, a `SetTransformations` call, a
`SetShaderTexture` call and a `SetShaderMaterial` call. -/
def followsPattern (segment : List Call) : Bool :=
  patternStage 0 segment == 3

/-- The segment starts with a `SetTransformations` call. -/
def startsWithTransform : List Call → Bool
  | Call.SetTransformations _ _ _ _ _ :: _ => true
  | _ => false

/-- The texture tags a list of calls passes to `SetShaderTexture`. -/
def textureTags : List Call → List String
  | [] => []
  | Call.SetShaderTexture tag :: rest => tag :: textureTags rest
  | _ :: rest => textureTags rest

/-- The material tags a list of calls passes to `SetShaderMaterial`. -/
def materialTags : List Call → List String
  | [] => []
  | Call.SetShaderMaterial tag :: rest => tag :: materialTags rest
  | _ :: rest => materialTags rest

/-- Whether `CreateGLTexture` succeeds on the file: it decodes, to 3 or 4
channels. -/
def loads (env : Env) (filename : String) : Bool :=
  match env.stbi_load filename with
  | none => false
  | some image => decide (image.colorChannels = 3 ∨ image.colorChannels = 4)

/-- The tags of the loads that succeed, in call order. -/
def loadedTags (env : Env) : List (String × String) → List String
  | [] => []
  | (filename, tag) :: rest =>
    if loads env filename then tag :: loadedTags env rest else loadedTags env rest

/-- The draws of `RenderScene` with their transformations. -/
def sceneDraws : List (MeshCall × Option ModelView) :=
  transformedDraws none (callsOf RenderScene)

/-- A material whose fields are all zero, for the uninitialised local. -/
def zeroMaterial : OBJECT_MATERIAL :=
  { diffuseColor := (0, 0, 0), specularColor := (0, 0, 0), shininess := 0, tag := "" }

/-- The render functions can run on the state: a shader manager is attached
and the counter of the texture registry fits the array. -/
def ready (r : RenderState) : Prop :=
  (∃ sm, r.scene.m_pShaderManager = some sm) ∧
    r.scene.m_loadedTextures ≤ r.scene.m_textureIDs.length

/-- The model matrix in force after a call, given the one in force before. -/
def nextModel (current : Option ModelView) : Call → Option ModelView
  | Call.SetTransformations scaleXYZ x y z positionXYZ =>
    some { scaleXYZ := scaleXYZ, XrotationDegrees := x, YrotationDegrees := y,
           ZrotationDegrees := z, positionXYZ := positionXYZ }
  | _ => current

/-- The draw a call adds to the record of `m_basicMeshes`, if it is a draw. -/
def drawOf (uniforms : List UniformCall) : Call → List DrawRecord
  | Call.Draw mesh => [{ mesh := mesh, uniforms := uniforms }]
  | _ => []

/-- The state of `LoadSceneTextures` on `fresh` in the sample environment,
where all thirteen files decode. -/
def loadedScene : SceneManager :=
  match LoadSceneTextures sampleEnv fresh with
  | Except.ok s => s
  | Except.error _ => fresh

/-- The state before rendering: textures loaded, materials defined, nothing
drawn yet. -/
def preparedScene : RenderState :=
  { scene := DefineObjectMaterials loadedScene, m_basicMeshes := [] }

deriving instance DecidableEq for Except

/-- The centre of the key in the given row and column, in the words of the
statement: `(-4.6 + 0.85 * col, 0.55, 7.6 - 0.85 * row)`. -/
def keyCentre (row col : Nat) : Vec3 :=
  (-4.6 + 0.85 * (col : ℚ), 0.55, 7.6 - 0.85 * (row : ℚ))

/-- The draw of the key in the given row and column, in the words of the
statement: a box with scale (0.8, 0.2, 0.8), no rotation, centred at
`keyCentre`. -/
def keyDraw (row col : Nat) : MeshCall × Option ModelView :=
  (MeshCall.DrawBoxMesh,
    some { scaleXYZ := (0.8, 0.2, 0.8), XrotationDegrees := 0, YrotationDegrees := 0,
           ZrotationDegrees := 0, positionXYZ := keyCentre row col })

/-- The draw of the keyboard base. -/
def keyboardBaseDraw : MeshCall × Option ModelView :=
  (MeshCall.DrawBoxMesh,
    some { scaleXYZ := (10.2, 0.5, 4.0), XrotationDegrees := 0, YrotationDegrees := 0,
           ZrotationDegrees := 0, positionXYZ := (0.1, 0.25, 6.0) })

/-- The key draws in row-major order: rows 0 to 4, in each row columns 0 to
11. -/
def keyDraws : List (MeshCall × Option ModelView) :=
  (List.range 5).flatMap (fun row => (List.range 12).map (fun col => keyDraw row col))

/-- Modelled from the spec: the box mesh of `ShapeMeshes` (not part of the
sources at hand), taken as a unit cube centred at the origin.  Under a model
matrix without rotation the box then covers, in x and in z, the interval of
length `scale` around `position`: the footprint is the pair of the x interval
and the z interval, each as (lower end, upper end). -/
def footprint (m : ModelView) : (ℚ × ℚ) × (ℚ × ℚ) :=
  ((m.positionXYZ.1 - m.scaleXYZ.1 / 2, m.positionXYZ.1 + m.scaleXYZ.1 / 2),
   (m.positionXYZ.2.2 - m.scaleXYZ.2.2 / 2, m.positionXYZ.2.2 + m.scaleXYZ.2.2 / 2))

/-- The footprint of a draw, if a model matrix is in force. -/
def footprintOf (d : MeshCall × Option ModelView) : Option ((ℚ × ℚ) × (ℚ × ℚ)) :=
  d.2.map footprint

/-- The x interval of `inner` lies in the x interval of `outer`. -/
def insideX (outer inner : (ℚ × ℚ) × (ℚ × ℚ)) : Bool :=
  decide (outer.1.1 ≤ inner.1.1 ∧ inner.1.2 ≤ outer.1.2)

/-- The z interval of `inner` lies in the z interval of `outer`. -/
def insideZ (outer inner : (ℚ × ℚ) × (ℚ × ℚ)) : Bool :=
  decide (outer.2.1 ≤ inner.2.1 ∧ inner.2.2 ≤ outer.2.2)

/-- The footprint of the draw lies in the footprint of the keyboard base. -/
def onBase (d : MeshCall × Option ModelView) : Bool :=
  match footprintOf keyboardBaseDraw, footprintOf d with
  | some outer, some inner => insideX outer inner && insideZ outer inner
  | _, _ => false

/-! ## Lemmas on the lookup loop -/

/-- No cell in the index range `[index, index + remaining)` carries the tag: the
scan reads every cell of the range and returns the initial `textureSlot`. -/
theorem FindTextureSlot.loop_miss (cells : List TEXTURE_INFO) (tag : String) (slot : Int) :
    ∀ (remaining index : Nat),
      (∀ j, index ≤ j → j < index + remaining → ∃ c, cells[j]? = some c ∧ c.tag ≠ tag) →
      FindTextureSlot.loop cells tag remaining slot index = Except.ok slot := by
  intro remaining
  induction remaining with
  | zero => intro index _; rfl
  | succ k ih =>
    intro index h
    obtain ⟨c, hc, hne⟩ := h index (Nat.le_refl _) (by omega)
    have hrest := ih (index + 1) (fun j h1 h2 => h j (by omega) (by omega))
    simp only [FindTextureSlot.loop, hc, if_neg hne, hrest]

/-- The cell at `i` is the first of the range `[index, index + remaining)` to
carry the tag: the scan returns `i`. -/
theorem FindTextureSlot.loop_hit (cells : List TEXTURE_INFO) (tag : String) (slot : Int)
    (i : Nat) (c : TEXTURE_INFO) (hc : cells[i]? = some c) (ht : c.tag = tag) :
    ∀ (remaining index : Nat), index ≤ i → i < index + remaining →
      (∀ j, index ≤ j → j < i → ∃ d, cells[j]? = some d ∧ d.tag ≠ tag) →
      FindTextureSlot.loop cells tag remaining slot index = Except.ok (i : Int) := by
  intro remaining
  induction remaining with
  | zero => intro index h1 h2; omega
  | succ k ih =>
    intro index h1 h2 h
    by_cases hi : index = i
    · subst hi
      simp only [FindTextureSlot.loop, hc, if_pos ht]
    · obtain ⟨d, hd, hne⟩ := h index (Nat.le_refl _) (by omega)
      have hrest := ih (index + 1) (by omega) (by omega)
        (fun j h3 h4 => h j (by omega) h4)
      simp only [FindTextureSlot.loop, hd, if_neg hne, hrest]

/-- On a range that lies inside the array, either some cell of the range carries
the tag, or none does. -/
theorem FindTextureSlot.range_cases (cells : List TEXTURE_INFO) (tag : String) :
    ∀ (remaining index : Nat), index + remaining ≤ cells.length →
      (∃ i c, index ≤ i ∧ i < index + remaining ∧ cells[i]? = some c ∧ c.tag = tag ∧
        ∀ j, index ≤ j → j < i → ∃ d, cells[j]? = some d ∧ d.tag ≠ tag) ∨
      (∀ j, index ≤ j → j < index + remaining → ∃ c, cells[j]? = some c ∧ c.tag ≠ tag) := by
  intro remaining
  induction remaining with
  | zero => intro index _; right; intro j h1 h2; omega
  | succ k ih =>
    intro index hlen
    have hlt : index < cells.length := by omega
    have hc : cells[index]? = some cells[index] := List.getElem?_eq_getElem hlt
    by_cases ht : (cells[index]).tag = tag
    · left
      exact ⟨index, cells[index], Nat.le_refl _, by omega, hc, ht, fun j h1 h2 => by omega⟩
    · rcases ih (index + 1) (by omega) with ⟨i, c, h1, h2, h3, h4, h5⟩ | hmiss
      · left
        refine ⟨i, c, by omega, by omega, h3, h4, fun j h6 h7 => ?_⟩
        by_cases hj : j = index
        · subst hj; exact ⟨_, hc, ht⟩
        · exact h5 j (by omega) h7
      · right
        intro j h1 h2
        by_cases hj : j = index
        · subst hj; exact ⟨_, hc, ht⟩
        · exact hmiss j (by omega) (by omega)

/-- Reading `tagAt` back through the array cell. -/
theorem tagAt_eq_some (s : SceneManager) (i : Nat) (t : String) :
    tagAt s i = some t ↔ ∃ c, s.m_textureIDs[i]? = some c ∧ c.tag = t := by
  simp [tagAt]

/-- A cell that exists and carries another tag does not carry `t`. -/
theorem tagAt_ne_of_cell (s : SceneManager) (i : Nat) (t : String)
    (h : ∃ d, s.m_textureIDs[i]? = some d ∧ d.tag ≠ t) : tagAt s i ≠ some t := by
  obtain ⟨d, hd, hne⟩ := h
  simp [tagAt, hd, hne]

/-- A cell inside the array that does not carry `t` exists and carries another
tag. -/
theorem cell_of_tagAt_ne (s : SceneManager) (i : Nat) (t : String)
    (hi : i < s.m_textureIDs.length) (h : tagAt s i ≠ some t) :
    ∃ d, s.m_textureIDs[i]? = some d ∧ d.tag ≠ t := by
  refine ⟨s.m_textureIDs[i], List.getElem?_eq_getElem hi, fun ht => h ?_⟩
  simp [tagAt, List.getElem?_eq_getElem hi, ht]

/-- The lookup on a state whose counter does not exceed the array: the outcome
is decided by the cells below the counter. -/
theorem FindTextureSlot_cases (s : SceneManager) (t : String)
    (hn : s.m_loadedTextures ≤ s.m_textureIDs.length) :
    (∃ i : Nat, (i : Int) < s.m_loadedTextures ∧ tagAt s i = some t ∧
        (∀ j : Nat, j < i → tagAt s j ≠ some t) ∧
        FindTextureSlot s t = Except.ok (i : Int)) ∨
    ((∀ j : Nat, (j : Int) < s.m_loadedTextures → tagAt s j ≠ some t) ∧
        FindTextureSlot s t = Except.ok (-1)) := by
  have hlen : 0 + s.m_loadedTextures.toNat ≤ s.m_textureIDs.length := by omega
  rcases FindTextureSlot.range_cases s.m_textureIDs t s.m_loadedTextures.toNat 0 hlen with
    ⟨i, c, h1, h2, h3, h4, h5⟩ | hmiss
  · left
    refine ⟨i, by omega, (tagAt_eq_some s i t).2 ⟨c, h3, h4⟩,
      fun j hj => tagAt_ne_of_cell s j t (h5 j (Nat.zero_le _) hj), ?_⟩
    exact FindTextureSlot.loop_hit s.m_textureIDs t (-1) i c h3 h4 _ 0 h1 h2 h5
  · right
    refine ⟨fun j hj => tagAt_ne_of_cell s j t (hmiss j (Nat.zero_le _) (by omega)), ?_⟩
    exact FindTextureSlot.loop_miss s.m_textureIDs t (-1) _ 0 hmiss

/-! ## C1: the slot lookup returns the first match or -1 -/

/-- C1. On every registry state whose counter `m_loadedTextures` fits the array,
`FindTextureSlot t` returns a value `r` such that `r = -1` exactly when no index
below the counter carries `t`, and `r = i` exactly when `i` is the smallest
index below the counter whose tag is `t`; cells at or above the counter are
never matched, and on a freshly constructed manager (whose cells all hold the
placeholder "/0") every lookup, also of "/0", returns -1. -/
theorem FindTextureSlot_first_match :
    (∀ (s : SceneManager) (t : String), s.m_loadedTextures ≤ s.m_textureIDs.length →
      ∃ r : Int, FindTextureSlot s t = Except.ok r ∧
        (r = -1 ↔ ∀ i : Nat, (i : Int) < s.m_loadedTextures → tagAt s i ≠ some t) ∧
        (∀ i : Nat, r = (i : Int) ↔
          ((i : Int) < s.m_loadedTextures ∧ tagAt s i = some t ∧
            ∀ j : Nat, j < i → tagAt s j ≠ some t))) ∧
    (∀ (pShaderManager : Option ShaderManager) (gl : List GLCall) (t : String),
      FindTextureSlot (SceneManager.new pShaderManager gl) t = Except.ok (-1)) := by
  refine ⟨fun s t hn => ?_, fun _ _ _ => rfl⟩
  rcases FindTextureSlot_cases s t hn with ⟨i, h1, h2, h3, h4⟩ | ⟨hmiss, h4⟩
  · refine ⟨(i : Int), h4, ⟨fun h => by omega, fun h => absurd h2 (h i h1)⟩, fun k => ?_⟩
    constructor
    · intro hk
      have hki : i = k := by omega
      subst hki
      exact ⟨h1, h2, h3⟩
    · rintro ⟨k1, k2, k3⟩
      have h5 : ¬ k < i := fun hlt => h3 k hlt k2
      have h6 : ¬ i < k := fun hlt => k3 i hlt h2
      omega
  · refine ⟨-1, h4, ⟨fun _ => hmiss, fun _ => rfl⟩, fun k => ?_⟩
    constructor
    · intro hk; omega
    · rintro ⟨k1, k2, _⟩
      exact absurd k2 (hmiss k k1)

/-- C1, witness: a registry holding the tags x, y, x in its first three cells;
the lookup of x returns slot 0 and the lookup of y returns slot 1. -/
theorem FindTextureSlot_first_match_witness :
    (3 : Int) ≤ (16 : Nat) ∧
    ∃ r : Int,
      FindTextureSlot
        { fresh with
          m_textureIDs :=
            [{ tag := "x", ID := 1 }, { tag := "y", ID := 2 }, { tag := "x", ID := 3 }] ++
              List.replicate 13 { tag := "/0", ID := 4294967295 }
          m_loadedTextures := 3 } "y" = Except.ok r ∧ r = 1 :=
  ⟨by decide, by
    obtain ⟨r, hr, _, h2⟩ := FindTextureSlot_first_match.1
      { fresh with
        m_textureIDs :=
          [{ tag := "x", ID := 1 }, { tag := "y", ID := 2 }, { tag := "x", ID := 3 }] ++
            List.replicate 13 { tag := "/0", ID := 4294967295 }
        m_loadedTextures := 3 } "y" (by decide)
    exact ⟨r, hr, (h2 1).2 (by decide)⟩⟩

/-! ## Lemmas on `CreateGLTexture` -/

/-- An upload call exists exactly for 3 and for 4 channels. -/
theorem texImageCall_eq_none (image : Image) :
    texImageCall image = none ↔ ¬ (image.colorChannels = 3 ∨ image.colorChannels = 4) := by
  unfold texImageCall
  by_cases h3 : image.colorChannels = 3
  · simp [h3]
  · by_cases h4 : image.colorChannels = 4
    · simp [h4]
    · simp [h3, h4]

/-- The file does not decode: the call returns false and changes nothing. -/
theorem CreateGLTexture_not_loaded (env : Env) (filename tag : String) (s : SceneManager)
    (h : env.stbi_load filename = none) :
    CreateGLTexture env filename tag s = Except.ok (false, s) := by
  simp only [CreateGLTexture, h]

/-- The file decodes to a channel count other than 3 and 4: the call returns
false after the GL calls made so far, the members untouched. -/
theorem CreateGLTexture_bad_channels (env : Env) (filename tag : String) (s : SceneManager)
    (image : Image) (h : env.stbi_load filename = some image)
    (hc : texImageCall image = none) :
    CreateGLTexture env filename tag s =
      Except.ok (false, { s with gl := glAfterGen env s }) := by
  simp only [CreateGLTexture, h, hc, glAfterGen]

/-- The file decodes to 3 or 4 channels and the counter designates a cell of
the array: the call returns true and leaves the state `registered`. -/
theorem CreateGLTexture_registers (env : Env) (filename tag : String) (s : SceneManager)
    (image : Image) (upload : GLCall) (h : env.stbi_load filename = some image)
    (hc : texImageCall image = some upload)
    (h0 : 0 ≤ s.m_loadedTextures) (hlt : s.m_loadedTextures < s.m_textureIDs.length) :
    CreateGLTexture env filename tag s = Except.ok (true, registered env tag upload s) := by
  have hlt1 : s.m_loadedTextures.toNat < s.m_textureIDs.length := by omega
  have hcell : s.m_textureIDs[s.m_loadedTextures.toNat]? =
      some s.m_textureIDs[s.m_loadedTextures.toNat] := List.getElem?_eq_getElem hlt1
  simp only [CreateGLTexture, h, hc, setCellID, setCellTag, cellAt, if_pos h0, hcell,
    List.getElem?_set_self, List.length_set, hlt1, List.set_set, registered, glAfterGen]

/-- The file decodes to 3 or 4 channels and the counter designates no cell of
the array: the store `m_textureIDs[m_loadedTextures].ID = textureID` is out of
bounds. -/
theorem CreateGLTexture_overflows (env : Env) (filename tag : String) (s : SceneManager)
    (image : Image) (upload : GLCall) (h : env.stbi_load filename = some image)
    (hc : texImageCall image = some upload)
    (hfull : s.m_loadedTextures < 0 ∨ (s.m_textureIDs.length : Int) ≤ s.m_loadedTextures) :
    CreateGLTexture env filename tag s =
      Except.error (Fault.outOfBounds s.m_loadedTextures) := by
  rcases hfull with hneg | hge
  · have h0 : ¬ 0 ≤ s.m_loadedTextures := by omega
    simp only [CreateGLTexture, h, hc, setCellID, cellAt, if_neg h0]
  · have h0 : 0 ≤ s.m_loadedTextures := by omega
    have hnone : s.m_textureIDs[s.m_loadedTextures.toNat]? = none :=
      List.getElem?_eq_none (by omega)
    simp only [CreateGLTexture, h, hc, setCellID, cellAt, if_pos h0, hnone]

/-- Whatever the state, a call that returns false found no image or a channel
count other than 3 and 4, and left the members as they were. -/
theorem CreateGLTexture_false_cases (env : Env) (filename tag : String) (s s1 : SceneManager)
    (h : CreateGLTexture env filename tag s = Except.ok (false, s1)) :
    (env.stbi_load filename = none ∧ s1 = s) ∨
    (∃ image, env.stbi_load filename = some image ∧ texImageCall image = none ∧
      s1 = { s with gl := glAfterGen env s }) := by
  cases hl : env.stbi_load filename with
  | none =>
    rw [CreateGLTexture_not_loaded env filename tag s hl] at h
    injection h with h
    injection h with _ h
    exact Or.inl ⟨rfl, h.symm⟩
  | some image =>
    cases hc : texImageCall image with
    | none =>
      rw [CreateGLTexture_bad_channels env filename tag s image hl hc] at h
      injection h with h
      injection h with _ h
      exact Or.inr ⟨image, rfl, hc, h.symm⟩
    | some upload =>
      by_cases hroom : 0 ≤ s.m_loadedTextures ∧ s.m_loadedTextures < s.m_textureIDs.length
      · rw [CreateGLTexture_registers env filename tag s image upload hl hc hroom.1 hroom.2] at h
        injection h with h
        injection h with h _
        exact absurd h (by decide)
      · rw [CreateGLTexture_overflows env filename tag s image upload hl hc (by omega)] at h
        exact Except.noConfusion h

/-- Whatever the state, a call that returns true decoded an image of 3 or 4
channels and left the state `registered`. -/
theorem CreateGLTexture_true_cases (env : Env) (filename tag : String) (s s1 : SceneManager)
    (h : CreateGLTexture env filename tag s = Except.ok (true, s1)) :
    ∃ image upload, env.stbi_load filename = some image ∧ texImageCall image = some upload ∧
      (image.colorChannels = 3 ∨ image.colorChannels = 4) ∧
      0 ≤ s.m_loadedTextures ∧ s.m_loadedTextures < s.m_textureIDs.length ∧
      s1 = registered env tag upload s := by
  cases hl : env.stbi_load filename with
  | none =>
    rw [CreateGLTexture_not_loaded env filename tag s hl] at h
    injection h with h
    injection h with h _
    exact absurd h (by decide)
  | some image =>
    cases hc : texImageCall image with
    | none =>
      rw [CreateGLTexture_bad_channels env filename tag s image hl hc] at h
      injection h with h
      injection h with h _
      exact absurd h (by decide)
    | some upload =>
      have hch : image.colorChannels = 3 ∨ image.colorChannels = 4 := by
        by_contra hno
        rw [(texImageCall_eq_none image).2 hno] at hc
        exact Option.noConfusion hc
      by_cases hroom : 0 ≤ s.m_loadedTextures ∧ s.m_loadedTextures < s.m_textureIDs.length
      · rw [CreateGLTexture_registers env filename tag s image upload hl hc hroom.1 hroom.2] at h
        injection h with h
        injection h with _ h
        exact ⟨image, upload, rfl, hc, hch, hroom.1, hroom.2, h.symm⟩
      · rw [CreateGLTexture_overflows env filename tag s image upload hl hc (by omega)] at h
        exact Except.noConfusion h

/-- An image of 3 or 4 channels has an upload call. -/
theorem texImageCall_of_channels (image : Image)
    (h : image.colorChannels = 3 ∨ image.colorChannels = 4) :
    ∃ upload, texImageCall image = some upload := by
  cases hc : texImageCall image with
  | none => exact absurd h ((texImageCall_eq_none image).1 hc)
  | some upload => exact ⟨upload, rfl⟩

/-! ## The array keeps its 16 cells -/

/-- The constructor leaves an array of `textureCapacity` cells. -/
theorem new_length (pShaderManager : Option ShaderManager) (gl : List GLCall) :
    (SceneManager.new pShaderManager gl).m_textureIDs.length = textureCapacity := by
  simp [SceneManager.new]

/-- A call of `CreateGLTexture` that returns does not change the number of
cells of the array. -/
theorem CreateGLTexture_length (env : Env) (filename tag : String) (s s1 : SceneManager)
    (b : Bool) (h : CreateGLTexture env filename tag s = Except.ok (b, s1)) :
    s1.m_textureIDs.length = s.m_textureIDs.length := by
  cases b with
  | false =>
    rcases CreateGLTexture_false_cases env filename tag s s1 h with ⟨_, h1⟩ | ⟨_, _, _, h1⟩
    · rw [h1]
    · rw [h1]
  | true =>
    obtain ⟨_, upload, _, _, _, _, _, h1⟩ := CreateGLTexture_true_cases env filename tag s s1 h
    rw [h1]
    simp [registered]

/-- A run of `CreateGLTexture` calls that returns does not change the number
of cells of the array. -/
theorem createAll_length (env : Env) :
    ∀ (calls : List (String × String)) (s s1 : SceneManager),
      createAll env calls s = Except.ok s1 →
      s1.m_textureIDs.length = s.m_textureIDs.length := by
  intro calls
  induction calls with
  | nil =>
    intro s s1 h
    simp only [createAll] at h
    injection h with h
    rw [h]
  | cons call rest ih =>
    intro s s1 h
    obtain ⟨filename, tag⟩ := call
    simp only [createAll] at h
    cases hc : CreateGLTexture env filename tag s with
    | error f =>
      rw [hc] at h
      exact Except.noConfusion h
    | ok r =>
      obtain ⟨b, s2⟩ := r
      rw [hc] at h
      rw [ih s2 s1 h, CreateGLTexture_length env filename tag s s2 b hc]

/-! ## C3: when `CreateGLTexture` returns true -/

/-- C3. `CreateGLTexture filename tag` returns false when the image cannot be
loaded and when its channel count is neither 3 nor 4, in every state; and in
every state whose counter designates a cell of the array (a free slot), it
returns true if and only if the file decodes and its channel count is 3 or 4. -/
theorem CreateGLTexture_returns_true_iff (env : Env) (filename tag : String)
    (s : SceneManager) :
    (0 ≤ s.m_loadedTextures → s.m_loadedTextures < s.m_textureIDs.length →
      ((∃ s1, CreateGLTexture env filename tag s = Except.ok (true, s1)) ↔
        ∃ image, env.stbi_load filename = some image ∧
          (image.colorChannels = 3 ∨ image.colorChannels = 4))) ∧
    (env.stbi_load filename = none →
      ∃ s1, CreateGLTexture env filename tag s = Except.ok (false, s1)) ∧
    (∀ image, env.stbi_load filename = some image →
      ¬ (image.colorChannels = 3 ∨ image.colorChannels = 4) →
      ∃ s1, CreateGLTexture env filename tag s = Except.ok (false, s1)) := by
  refine ⟨fun h0 hlt => ⟨?_, ?_⟩, fun hl => ⟨s, CreateGLTexture_not_loaded env filename tag s hl⟩,
    fun image hl hch => ⟨_, CreateGLTexture_bad_channels env filename tag s image hl
      ((texImageCall_eq_none image).2 hch)⟩⟩
  · rintro ⟨s1, h⟩
    obtain ⟨image, _, hl, _, hch, _⟩ := CreateGLTexture_true_cases env filename tag s s1 h
    exact ⟨image, hl, hch⟩
  · rintro ⟨image, hl, hch⟩
    obtain ⟨upload, hc⟩ := texImageCall_of_channels image hch
    exact ⟨_, CreateGLTexture_registers env filename tag s image upload hl hc h0 hlt⟩

/-- C3, witness: on a fresh manager the RGB file `textures/wood.jpg` of the
sample environment makes the call return true. -/
theorem CreateGLTexture_returns_true_iff_witness :
    (0 : Int) ≤ fresh.m_loadedTextures ∧
    fresh.m_loadedTextures < fresh.m_textureIDs.length ∧
    ∃ s1, CreateGLTexture sampleEnv "textures/wood.jpg" "wood" fresh = Except.ok (true, s1) :=
  ⟨by decide, by decide,
    ((CreateGLTexture_returns_true_iff sampleEnv "textures/wood.jpg" "wood" fresh).1
      (by decide) (by decide)).2
      ⟨{ width := 2, height := 2, colorChannels := 3, data := [] }, rfl, Or.inl rfl⟩⟩

/-! ## C6: a failed `CreateGLTexture` leaves the registry alone -/

/-- C6. Whenever `CreateGLTexture` returns false the texture registry is
unchanged (same counter, same cells); and it does return false, with the
registry unchanged, both when the image cannot be loaded and when its channel
count is neither 3 nor 4. -/
theorem CreateGLTexture_false_keeps_registry (env : Env) (filename tag : String)
    (s : SceneManager) :
    (∀ s1, CreateGLTexture env filename tag s = Except.ok (false, s1) → sameRegistry s s1) ∧
    (env.stbi_load filename = none →
      ∃ s1, CreateGLTexture env filename tag s = Except.ok (false, s1) ∧ sameRegistry s s1) ∧
    (∀ image, env.stbi_load filename = some image →
      ¬ (image.colorChannels = 3 ∨ image.colorChannels = 4) →
      ∃ s1, CreateGLTexture env filename tag s = Except.ok (false, s1) ∧ sameRegistry s s1) := by
  refine ⟨fun s1 h => ?_, fun hl => ⟨s, CreateGLTexture_not_loaded env filename tag s hl, rfl, rfl⟩,
    fun image hl hch => ⟨_, CreateGLTexture_bad_channels env filename tag s image hl
      ((texImageCall_eq_none image).2 hch), rfl, rfl⟩⟩
  rcases CreateGLTexture_false_cases env filename tag s s1 h with ⟨_, h1⟩ | ⟨_, _, _, h1⟩
  · subst h1; exact ⟨rfl, rfl⟩
  · subst h1; exact ⟨rfl, rfl⟩

/-- C6, witness: on a fresh manager, loading the one-channel file
`textures/gray.png` of the sample environment returns false and leaves the
registry unchanged. -/
theorem CreateGLTexture_false_keeps_registry_witness :
    ∃ s1, CreateGLTexture sampleEnv "textures/gray.png" "gray" fresh = Except.ok (false, s1) ∧
      sameRegistry fresh s1 :=
  (CreateGLTexture_false_keeps_registry sampleEnv "textures/gray.png" "gray" fresh).2.2
    { width := 2, height := 2, colorChannels := 1, data := [] } rfl (by decide)

/-! ## Lemmas on the registered state -/

/-- Registering leaves every cell but the one at the counter as it was. -/
theorem registered_cell_other (env : Env) (tag : String) (upload : GLCall) (s : SceneManager)
    (i : Nat) (hi : i ≠ s.m_loadedTextures.toNat) :
    (registered env tag upload s).m_textureIDs[i]? = s.m_textureIDs[i]? := by
  simp only [registered]
  exact List.getElem?_set_ne (fun h => hi h.symm)

/-- Registering puts the tag and the generated name into the cell at the
counter. -/
theorem registered_cell_self (env : Env) (tag : String) (upload : GLCall) (s : SceneManager)
    (hlt : s.m_loadedTextures.toNat < s.m_textureIDs.length) :
    (registered env tag upload s).m_textureIDs[s.m_loadedTextures.toNat]? =
      some { tag := tag, ID := env.glGenTextures s.gl } := by
  simp only [registered]
  rw [List.getElem?_set_self hlt]

/-- The lookup returns `i` when `i` is the first index below the counter that
carries the tag. -/
theorem FindTextureSlot_of_first (s : SceneManager) (t : String) (i : Nat)
    (hn : s.m_loadedTextures ≤ s.m_textureIDs.length) (hi : (i : Int) < s.m_loadedTextures)
    (h : tagAt s i = some t) (hmin : ∀ j : Nat, j < i → tagAt s j ≠ some t) :
    FindTextureSlot s t = Except.ok (i : Int) := by
  obtain ⟨c, hc, ht⟩ := (tagAt_eq_some s i t).1 h
  exact FindTextureSlot.loop_hit s.m_textureIDs t (-1) i c hc ht _ 0 (Nat.zero_le _) (by omega)
    (fun j _ hj => cell_of_tagAt_ne s j t (by omega) (hmin j hj))

/-- The lookup returns -1 when no index below the counter carries the tag. -/
theorem FindTextureSlot_of_none (s : SceneManager) (t : String)
    (hn : s.m_loadedTextures ≤ s.m_textureIDs.length)
    (h : ∀ j : Nat, (j : Int) < s.m_loadedTextures → tagAt s j ≠ some t) :
    FindTextureSlot s t = Except.ok (-1) :=
  FindTextureSlot.loop_miss s.m_textureIDs t (-1) _ 0
    (fun j _ hj => cell_of_tagAt_ne s j t (by omega) (h j (by omega)))

/-- The tags of the registered state: the new tag at the counter, the old tags
elsewhere. -/
theorem registered_tagAt (env : Env) (tag : String) (upload : GLCall) (s : SceneManager)
    (hlt : s.m_loadedTextures.toNat < s.m_textureIDs.length) (i : Nat) :
    tagAt (registered env tag upload s) i =
      if i = s.m_loadedTextures.toNat then some tag else tagAt s i := by
  by_cases hi : i = s.m_loadedTextures.toNat
  · rw [if_pos hi, hi]
    simp only [tagAt, registered_cell_self env tag upload s hlt, Option.map_some']
  · simp only [tagAt, registered_cell_other env tag upload s i hi, if_neg hi]

/-! ## C5: a successful `CreateGLTexture` is a pure append -/

/-- C5. When `CreateGLTexture filename tag` returns true on a registry with
counter `n`, the counter designated a free cell of the array (`0 <= n` and `n`
below the array length, 16), and afterwards the counter is `n + 1`, the cell at
index `n` holds `tag` and the texture name the GL generated in this call, and
every other cell, in particular every cell below `n`, holds the same tag and
handle as before. -/
theorem CreateGLTexture_appends (env : Env) (filename tag : String) (s s1 : SceneManager)
    (hret : CreateGLTexture env filename tag s = Except.ok (true, s1)) :
    (0 ≤ s.m_loadedTextures ∧ s.m_loadedTextures < s.m_textureIDs.length) ∧
    s1.m_loadedTextures = s.m_loadedTextures + 1 ∧
    s1.m_textureIDs[s.m_loadedTextures.toNat]? =
      some { tag := tag, ID := env.glGenTextures s.gl } ∧
    GLCall.glGenTextures 1 (env.glGenTextures s.gl) ∈ s1.gl ∧
    (∀ i : Nat, (i : Int) < s.m_loadedTextures → s1.m_textureIDs[i]? = s.m_textureIDs[i]?) ∧
    (∀ i : Nat, (i : Int) ≠ s.m_loadedTextures → s1.m_textureIDs[i]? = s.m_textureIDs[i]?) ∧
    s1.m_textureIDs.length = s.m_textureIDs.length := by
  obtain ⟨image, upload, _, _, _, h0, hlt, hs1⟩ :=
    CreateGLTexture_true_cases env filename tag s s1 hret
  subst hs1
  refine ⟨⟨h0, hlt⟩, rfl, registered_cell_self env tag upload s (by omega), ?_,
    fun i hi => registered_cell_other env tag upload s i (by omega),
    fun i hi => registered_cell_other env tag upload s i (by omega), ?_⟩
  · simp [registered, glAfterGen]
  · simp [registered]

/-- C5, witness: the first load on a fresh manager of the sample environment
returns true; the counter becomes 1 and cell 0 holds the tag and the name 1. -/
theorem CreateGLTexture_appends_witness :
    CreateGLTexture sampleEnv "textures/wood.jpg" "wood" fresh = Except.ok (true, loadedOnce) ∧
    loadedOnce.m_loadedTextures = 1 ∧
    loadedOnce.m_textureIDs[0]? = some { tag := "wood", ID := 1 } :=
  ⟨rfl,
    (CreateGLTexture_appends sampleEnv "textures/wood.jpg" "wood" fresh loadedOnce rfl).2.1,
    (CreateGLTexture_appends sampleEnv "textures/wood.jpg" "wood" fresh loadedOnce rfl).2.2.1⟩

/-! ## C7: no deduplication at insertion, first match at lookup -/

/-- C7. When `CreateGLTexture _ t` returns true on a registry with counter `n`
(so that `n` designated a free cell), `FindTextureSlot t` afterwards equals its
previous value if some index below `n` already carried `t`, equals `n` if none
did, and `FindTextureSlot` of every other tag is unchanged; every lookup on the
new state returns a value. -/
theorem CreateGLTexture_keeps_first_match (env : Env) (filename t : String)
    (s s1 : SceneManager)
    (hret : CreateGLTexture env filename t s = Except.ok (true, s1)) :
    ((∃ i : Nat, (i : Int) < s.m_loadedTextures ∧ tagAt s i = some t) →
      FindTextureSlot s1 t = FindTextureSlot s t) ∧
    ((∀ i : Nat, (i : Int) < s.m_loadedTextures → tagAt s i ≠ some t) →
      FindTextureSlot s t = Except.ok (-1) ∧
      FindTextureSlot s1 t = Except.ok s.m_loadedTextures) ∧
    (∀ t1 : String, t1 ≠ t → FindTextureSlot s1 t1 = FindTextureSlot s t1) ∧
    (∀ t1 : String, ∃ r : Int, FindTextureSlot s1 t1 = Except.ok r) := by
  obtain ⟨image, upload, _, _, _, h0, hlt, hs1⟩ :=
    CreateGLTexture_true_cases env filename t s s1 hret
  subst hs1
  have hlt1 : s.m_loadedTextures.toNat < s.m_textureIDs.length := by omega
  have hn : s.m_loadedTextures ≤ s.m_textureIDs.length := by omega
  have hlen : (registered env t upload s).m_textureIDs.length = s.m_textureIDs.length := by
    simp [registered]
  have hcnt : (registered env t upload s).m_loadedTextures = s.m_loadedTextures + 1 := rfl
  have hn1 : (registered env t upload s).m_loadedTextures ≤
      (registered env t upload s).m_textureIDs.length := by
    rw [hlen, hcnt]; omega
  have htag := registered_tagAt env t upload s hlt1
  -- a first match below the old counter is still the first match
  have hkeep : ∀ (t1 : String) (i : Nat), (i : Int) < s.m_loadedTextures →
      tagAt s i = some t1 → (∀ j : Nat, j < i → tagAt s j ≠ some t1) →
      FindTextureSlot (registered env t upload s) t1 = Except.ok (i : Int) := by
    intro t1 i hi h hmin
    refine FindTextureSlot_of_first _ t1 i hn1 (by rw [hcnt]; omega) ?_ ?_
    · rw [htag i, if_neg (by omega)]; exact h
    · intro j hj
      rw [htag j, if_neg (by omega)]; exact hmin j hj
  refine ⟨?_, ?_, ?_, ?_⟩
  · rintro ⟨k, hk, hkt⟩
    rcases FindTextureSlot_cases s t hn with ⟨i, h1, h2, h3, h4⟩ | ⟨hmiss, _⟩
    · rw [h4]; exact hkeep t i h1 h2 h3
    · exact absurd hkt (hmiss k hk)
  · intro hmiss
    refine ⟨FindTextureSlot_of_none s t hn hmiss, ?_⟩
    have h := FindTextureSlot_of_first (registered env t upload s) t s.m_loadedTextures.toNat hn1
      (by rw [hcnt]; omega) (by rw [htag, if_pos rfl])
      (fun j hj => by rw [htag j, if_neg (by omega)]; exact hmiss j (by omega))
    rw [h, Int.toNat_of_nonneg h0]
  · intro t1 hne
    rcases FindTextureSlot_cases s t1 hn with ⟨i, h1, h2, h3, h4⟩ | ⟨hmiss, h4⟩
    · rw [h4]; exact hkeep t1 i h1 h2 h3
    · rw [h4]
      refine FindTextureSlot_of_none _ t1 hn1 (fun j hj => ?_)
      rw [htag j]
      by_cases hjn : j = s.m_loadedTextures.toNat
      · rw [if_pos hjn]
        exact fun h => hne (Option.some.inj h).symm
      · rw [if_neg hjn]
        exact hmiss j (by rw [hcnt] at hj; omega)
  · intro t1
    rcases FindTextureSlot_cases (registered env t upload s) t1 hn1 with
      ⟨i, _, _, _, h4⟩ | ⟨_, h4⟩
    · exact ⟨_, h4⟩
    · exact ⟨_, h4⟩

/-- C7, witness: loading a second texture under the tag already in slot 0
leaves the lookup of that tag at slot 0, although the tag now also sits in
slot 1. -/
theorem CreateGLTexture_keeps_first_match_witness :
    CreateGLTexture sampleEnv "textures/oak.jpg" "wood" loadedOnce =
      Except.ok (true, loadedTwice) ∧
    tagAt loadedTwice 1 = some "wood" ∧
    FindTextureSlot loadedTwice "wood" = FindTextureSlot loadedOnce "wood" ∧
    FindTextureSlot loadedOnce "wood" = Except.ok 0 :=
  ⟨rfl, by decide,
    (CreateGLTexture_keeps_first_match sampleEnv "textures/oak.jpg" "wood" loadedOnce
      loadedTwice rfl).1 ⟨0, by decide, by decide⟩,
    rfl⟩

/-! ## C4: the capacity of the array is not checked -/

/-- C4 (the code at the failing input). Sixteen successful `CreateGLTexture`
calls on a freshly constructed manager fill the array: the counter is 16, the
length of the array.  The seventeenth successful load then executes the store
`m_textureIDs[16].ID = textureID`, an access outside the 16 cells: the code has
no capacity check. -/
theorem CreateGLTexture_seventeenth_store_out_of_bounds :
    ∃ s16, createAll sampleEnv sixteenLoads fresh = Except.ok s16 ∧
      s16.m_loadedTextures = 16 ∧ s16.m_textureIDs.length = textureCapacity ∧
      CreateGLTexture sampleEnv "textures/wood.jpg" "wood" s16 =
        Except.error (Fault.outOfBounds 16) :=
  ⟨_, rfl, rfl, rfl, rfl⟩

/-! ## C2: the flag returned by `FindMaterial` -/

/-- What `FindMaterial` returns: true exactly when the registry is not empty,
whatever the tag. -/
theorem FindMaterial_flag (s : SceneManager) (tag : String) (material : OBJECT_MATERIAL) :
    (FindMaterial s tag material).1 = true ↔ s.m_objectMaterials ≠ [] := by
  unfold FindMaterial
  by_cases h : s.m_objectMaterials.length = 0
  · simp [h, List.length_eq_zero.1 h]
  · have hne : s.m_objectMaterials ≠ [] := fun h0 => h (by simp [h0])
    simp [h, hne]

/-- C2 (the code at the failing input). After `DefineObjectMaterials` no record
carries the tag "rubber", yet `FindMaterial "rubber"` returns true, with the
caller's `material` left as it was. -/
theorem FindMaterial_true_without_match :
    (∀ r ∈ withMaterials.m_objectMaterials, r.tag ≠ "rubber") ∧
    ∀ m0 : OBJECT_MATERIAL, FindMaterial withMaterials "rubber" m0 = (true, m0) :=
  ⟨by decide, fun _ => rfl⟩

/-! ## C8: `DestroyGLTextures` writes into the registry -/

/-- `BindGLTextures` leaves the registry as it was. -/
theorem BindGLTextures_keeps_registry (s s1 : SceneManager)
    (h : BindGLTextures s = Except.ok s1) : sameRegistry s s1 := by
  unfold BindGLTextures at h
  split at h
  · exact Except.noConfusion h
  · injection h with h
    subst h
    exact ⟨rfl, rfl⟩

/-- `SetShaderTexture` leaves the registry as it was. -/
theorem SetShaderTexture_keeps_registry (s s1 : SceneManager) (t : String)
    (h : SetShaderTexture s t = Except.ok s1) : sameRegistry s s1 := by
  unfold SetShaderTexture at h
  split at h
  · injection h with h
    subst h
    exact ⟨rfl, rfl⟩
  · split at h
    · exact Except.noConfusion h
    · injection h with h
      subst h
      exact ⟨rfl, rfl⟩

/-- C8 (the code at the failing input). After one successful load the cell 0
holds the handle 1.  `DestroyGLTextures` then issues `glGenTextures` on that
cell, not a delete: the handle of the registered entry is overwritten with the
newly generated name 2. -/
theorem DestroyGLTextures_overwrites_handle :
    loadedOnce.m_textureIDs[0]? = some { tag := "wood", ID := 1 } ∧
    ∃ s2, DestroyGLTextures sampleEnv loadedOnce = Except.ok s2 ∧
      s2.m_loadedTextures = 1 ∧
      s2.m_textureIDs[0]? = some { tag := "wood", ID := 2 } ∧
      s2.gl = loadedOnce.gl ++ [GLCall.glGenTextures 1 2] :=
  ⟨rfl, _, rfl, rfl, rfl, rfl⟩

/-! ## C9: `SetShaderTexture` passes the lookup result on unchecked -/

/-- C9. With a non-null shader manager, `SetShaderTexture t` sends exactly two
uniform assignments: `bUseTexture` set to true (the integer 1) and the sampler
`objectTexture` set to the value `r` that `FindTextureSlot t` returned, whatever
`r` is.  On a state whose counter fits the array the lookup does return, and
for a tag no index below the counter carries, the sampler is set to -1. -/
theorem SetShaderTexture_sets_slot (s : SceneManager) (sm : ShaderManager) (t : String)
    (hsm : s.m_pShaderManager = some sm) :
    (∀ r : Int, FindTextureSlot s t = Except.ok r →
      SetShaderTexture s t = Except.ok { s with
        m_pShaderManager := some { calls := sm.calls ++
          [UniformCall.setIntValue "bUseTexture" 1,
           UniformCall.setSampler2DValue "objectTexture" r] } }) ∧
    (s.m_loadedTextures ≤ s.m_textureIDs.length →
      ∃ r : Int, FindTextureSlot s t = Except.ok r) ∧
    (s.m_loadedTextures ≤ s.m_textureIDs.length →
      (∀ i : Nat, (i : Int) < s.m_loadedTextures → tagAt s i ≠ some t) →
      SetShaderTexture s t = Except.ok { s with
        m_pShaderManager := some { calls := sm.calls ++
          [UniformCall.setIntValue "bUseTexture" 1,
           UniformCall.setSampler2DValue "objectTexture" (-1)] } }) := by
  have hset : ∀ r : Int, FindTextureSlot s t = Except.ok r →
      SetShaderTexture s t = Except.ok { s with
        m_pShaderManager := some { calls := sm.calls ++
          [UniformCall.setIntValue "bUseTexture" 1,
           UniformCall.setSampler2DValue "objectTexture" r] } } := by
    intro r hr
    simp only [SetShaderTexture, hsm, hr, ShaderManager.setIntValue,
      ShaderManager.setSampler2DValue, g_UseTextureName, g_TextureValueName,
      List.append_assoc, List.singleton_append]
  refine ⟨hset, fun hn => ?_, fun hn hmiss => hset (-1) (FindTextureSlot_of_none s t hn hmiss)⟩
  rcases FindTextureSlot_cases s t hn with ⟨i, _, _, _, h4⟩ | ⟨_, h4⟩
  · exact ⟨_, h4⟩
  · exact ⟨_, h4⟩

/-- C9, witness: on the manager with one texture tagged "wood", the tag "brick"
is not registered and `SetShaderTexture "brick"` sets the sampler to -1. -/
theorem SetShaderTexture_sets_slot_witness :
    loadedOnce.m_pShaderManager = some freshShader ∧
    SetShaderTexture loadedOnce "brick" = Except.ok { loadedOnce with
      m_pShaderManager := some { calls := freshShader.calls ++
        [UniformCall.setIntValue "bUseTexture" 1,
         UniformCall.setSampler2DValue "objectTexture" (-1)] } } :=
  ⟨rfl, (SetShaderTexture_sets_slot loadedOnce freshShader "brick" rfl).2.2
    (by decide) (fun i hi => by
      have h1 : loadedOnce.m_loadedTextures = 1 := rfl
      have h0 : i = 0 := by omega
      subst h0
      decide)⟩

/-! ## C10: `SetShaderMaterial` on a tag without a record -/

/-- C10 (the code at the failing input). After `DefineObjectMaterials` no
record carries the tag "rubber", yet `SetShaderMaterial "rubber"` writes the
three material uniforms, with the contents `m0` the local `material` happened
to have: `FindMaterial` reported true. -/
theorem SetShaderMaterial_writes_without_match :
    (∀ r ∈ withMaterials.m_objectMaterials, r.tag ≠ "rubber") ∧
    ∀ m0 : OBJECT_MATERIAL,
      SetShaderMaterial withMaterials "rubber" m0 = Except.ok { withMaterials with
        m_pShaderManager := some { calls :=
          [UniformCall.setVec3Value "material.diffuseColor" m0.diffuseColor,
           UniformCall.setVec3Value "material.specularColor" m0.specularColor,
           UniformCall.setFloatValue "material.shininess" m0.shininess] } } :=
  ⟨by decide, fun _ => rfl⟩

/-! ## C11: `FindMaterial` copies the first record with the tag -/

/-- The loop of `FindMaterial` copies the record at index `i` when that record
carries the tag and no record before it does. -/
theorem FindMaterial.loop_first (tag : String) (material : OBJECT_MATERIAL) :
    ∀ (records : List OBJECT_MATERIAL) (i : Nat) (record : OBJECT_MATERIAL),
      records[i]? = some record → record.tag = tag →
      (∀ (j : Nat) (r : OBJECT_MATERIAL), j < i → records[j]? = some r → r.tag ≠ tag) →
      FindMaterial.loop tag records material =
        { material with
          diffuseColor := record.diffuseColor
          specularColor := record.specularColor
          shininess := record.shininess } := by
  intro records
  induction records with
  | nil => intro i record h; simp at h
  | cons head rest ih =>
    intro i record hi ht hmin
    cases i with
    | zero =>
      simp only [List.getElem?_cons_zero, Option.some.injEq] at hi
      subst hi
      simp only [FindMaterial.loop, if_pos ht]
    | succ k =>
      have hhead : head.tag ≠ tag := hmin 0 head (Nat.succ_pos k) (by simp)
      simp only [List.getElem?_cons_succ] at hi
      simp only [FindMaterial.loop, if_neg hhead]
      exact ih k record hi ht (fun j r hj hr => hmin (j + 1) r (by omega) (by simpa using hr))

/-- A list with a record carrying the tag has a first such record. -/
theorem first_record_with_tag (tag : String) :
    ∀ (records : List OBJECT_MATERIAL), (∃ r ∈ records, r.tag = tag) →
      ∃ (i : Nat) (record : OBJECT_MATERIAL), records[i]? = some record ∧ record.tag = tag ∧
        ∀ (j : Nat) (r : OBJECT_MATERIAL), j < i → records[j]? = some r → r.tag ≠ tag := by
  intro records
  induction records with
  | nil => rintro ⟨r, hr, _⟩; simp at hr
  | cons head rest ih =>
    rintro ⟨r, hr, ht⟩
    by_cases hhead : head.tag = tag
    · exact ⟨0, head, by simp, hhead, fun j _ hj => by omega⟩
    · have hrest : ∃ r ∈ rest, r.tag = tag := by
        rcases List.mem_cons.1 hr with h | h
        · subst h; exact absurd ht hhead
        · exact ⟨r, h, ht⟩
      obtain ⟨i, record, h1, h2, h3⟩ := ih hrest
      refine ⟨i + 1, record, by simpa using h1, h2, fun j r hj hjr => ?_⟩
      cases j with
      | zero =>
        simp only [List.getElem?_cons_zero, Option.some.injEq] at hjr
        subst hjr; exact hhead
      | succ k => exact h3 k r (by omega) (by simpa using hjr)

/-- C11. When some record of the material registry has tag `t`, there is a
first (lowest-index) such record, and `FindMaterial t material` returns true
with `material`'s diffuseColor, specularColor and shininess set to those of
that record (its tag field is left as it was).  The function returns only the
flag and the filled-in `material`: it has no store to `m_objectMaterials`, so
the registry is the same after the call. -/
theorem FindMaterial_copies_first (s : SceneManager) (t : String) (material : OBJECT_MATERIAL)
    (h : ∃ r ∈ s.m_objectMaterials, r.tag = t) :
    ∃ (i : Nat) (record : OBJECT_MATERIAL),
      s.m_objectMaterials[i]? = some record ∧ record.tag = t ∧
      (∀ (j : Nat) (r : OBJECT_MATERIAL), j < i → s.m_objectMaterials[j]? = some r → r.tag ≠ t) ∧
      FindMaterial s t material =
        (true, { material with
          diffuseColor := record.diffuseColor
          specularColor := record.specularColor
          shininess := record.shininess }) := by
  obtain ⟨i, record, h1, h2, h3⟩ := first_record_with_tag t s.m_objectMaterials h
  refine ⟨i, record, h1, h2, h3, ?_⟩
  have hne : ¬ s.m_objectMaterials.length = 0 := by
    intro h0
    rw [List.length_eq_zero.1 h0] at h1
    simp at h1
  simp only [FindMaterial, if_neg hne, FindMaterial.loop_first t material _ i record h1 h2 h3]

/-- C11, witness: after `DefineObjectMaterials` the lookup of "glass" finds the
record at index 2 and copies its colours and shininess. -/
theorem FindMaterial_copies_first_witness :
    ∃ (i : Nat) (record : OBJECT_MATERIAL),
      withMaterials.m_objectMaterials[i]? = some record ∧ record.tag = "glass" ∧
      (∀ (j : Nat) (r : OBJECT_MATERIAL), j < i →
        withMaterials.m_objectMaterials[j]? = some r → r.tag ≠ "glass") ∧
      FindMaterial withMaterials "glass"
          { diffuseColor := (0, 0, 0), specularColor := (0, 0, 0), shininess := 0, tag := "" } =
        (true, { diffuseColor := record.diffuseColor, specularColor := record.specularColor,
                 shininess := record.shininess, tag := "" }) :=
  FindMaterial_copies_first withMaterials "glass"
    { diffuseColor := (0, 0, 0), specularColor := (0, 0, 0), shininess := 0, tag := "" }
    ⟨{ diffuseColor := (0.2, 0.2, 0.2), specularColor := (1.0, 1.0, 1.0),
       shininess := 95.0, tag := "glass" },
      List.getElem?_mem (rfl : withMaterials.m_objectMaterials[2]? = some _), rfl⟩

/-! ## C12: `FindTextureID` and `FindTextureSlot` agree -/

/-- The two lookup loops run in step: they fault together, miss together, and
when the slot loop stops at index `i` the ID loop returns the handle of cell
`i`, converted to `int`. -/
theorem FindTexture_loops_agree (cells : List TEXTURE_INFO) (tag : String) :
    ∀ (remaining index : Nat),
      (∀ f, FindTextureSlot.loop cells tag remaining (-1) index = Except.error f →
        FindTextureID.loop cells tag remaining (-1) index = Except.error f) ∧
      (FindTextureSlot.loop cells tag remaining (-1) index = Except.ok (-1) →
        FindTextureID.loop cells tag remaining (-1) index = Except.ok (-1)) ∧
      (∀ i : Nat, FindTextureSlot.loop cells tag remaining (-1) index = Except.ok (i : Int) →
        ∃ c, cells[i]? = some c ∧ c.tag = tag ∧ index ≤ i ∧
          (∀ j, index ≤ j → j < i → ∃ d, cells[j]? = some d ∧ d.tag ≠ tag) ∧
          FindTextureID.loop cells tag remaining (-1) index = Except.ok (toInt32 c.ID)) := by
  intro remaining
  induction remaining with
  | zero =>
    intro index
    refine ⟨fun f h => ?_, fun _ => rfl, fun i h => ?_⟩
    · simp only [FindTextureSlot.loop] at h
      exact Except.noConfusion h
    · simp only [FindTextureSlot.loop] at h
      injection h with h
      omega
  | succ k ih =>
    intro index
    cases hc : cells[index]? with
    | none =>
      simp only [FindTextureSlot.loop, FindTextureID.loop, hc]
      exact ⟨fun f h => h, fun h => Except.noConfusion h, fun i h => Except.noConfusion h⟩
    | some c =>
      by_cases ht : c.tag = tag
      · simp only [FindTextureSlot.loop, FindTextureID.loop, hc, if_pos ht]
        refine ⟨fun f h => Except.noConfusion h, fun h => ?_, fun i h => ?_⟩
        · injection h with h
          omega
        · injection h with h
          have hi : index = i := by omega
          subst hi
          exact ⟨c, hc, ht, Nat.le_refl _, fun j h1 h2 => by omega, rfl⟩
      · simp only [FindTextureSlot.loop, FindTextureID.loop, hc, if_neg ht]
        obtain ⟨h1, h2, h3⟩ := ih (index + 1)
        refine ⟨h1, h2, fun i h => ?_⟩
        obtain ⟨d, hd, hdt, hle, hmin, hid⟩ := h3 i h
        refine ⟨d, hd, hdt, by omega, fun j hj1 hj2 => ?_, hid⟩
        by_cases hj : j = index
        · subst hj; exact ⟨c, hc, ht⟩
        · exact hmin j (by omega) hj2

/-- The `int` a handle is returned as denotes the same 32-bit value, and is the
same number when the handle is below `2 ^ 31`. -/
theorem toInt32_spec (n : Nat) :
    toInt32 n % 2 ^ 32 = ((n % 2 ^ 32 : Nat) : Int) ∧ (n < 2 ^ 31 → toInt32 n = (n : Int)) := by
  unfold toInt32
  constructor
  · split <;> omega
  · intro h
    split <;> omega

/-- C12. On every registry state and for every tag `t`: if `FindTextureSlot t`
returns -1 then `FindTextureID t` returns -1; and if `FindTextureSlot t` returns
an index `i >= 0`, then cell `i` is the first cell tagged `t` and
`FindTextureID t` returns the handle stored in cell `i`, as the `int` the
function's return type converts the `GLuint` to (the same 32-bit value, and the
same number whenever the handle is below `2 ^ 31`). -/
theorem FindTextureID_agrees_with_slot (s : SceneManager) (t : String) :
    (FindTextureSlot s t = Except.ok (-1) → FindTextureID s t = Except.ok (-1)) ∧
    (∀ i : Nat, FindTextureSlot s t = Except.ok (i : Int) →
      ∃ c, s.m_textureIDs[i]? = some c ∧ c.tag = t ∧
        (∀ j : Nat, j < i → tagAt s j ≠ some t) ∧
        FindTextureID s t = Except.ok (toInt32 c.ID) ∧
        toInt32 c.ID % 2 ^ 32 = ((c.ID % 2 ^ 32 : Nat) : Int) ∧
        (c.ID < 2 ^ 31 → FindTextureID s t = Except.ok (c.ID : Int))) := by
  obtain ⟨_, h2, h3⟩ := FindTexture_loops_agree s.m_textureIDs t s.m_loadedTextures.toNat 0
  refine ⟨h2, fun i h => ?_⟩
  obtain ⟨c, hc, ht, _, hmin, hid⟩ := h3 i h
  refine ⟨c, hc, ht, fun j hj => tagAt_ne_of_cell s j t (hmin j (Nat.zero_le _) hj), hid,
    (toInt32_spec c.ID).1, fun hsmall => ?_⟩
  rw [← (toInt32_spec c.ID).2 hsmall]
  exact hid

/-- C12, witness: with the tag "wood" in slots 0 and 1 (handles 1 and 2),
`FindTextureSlot` returns 0 and `FindTextureID` returns the handle 1 of slot 0;
the unregistered tag "brick" gives -1 for both. -/
theorem FindTextureID_agrees_with_slot_witness :
    FindTextureSlot loadedTwice "wood" = Except.ok ((0 : Nat) : Int) ∧
    FindTextureID loadedTwice "wood" = Except.ok 1 ∧
    FindTextureSlot loadedTwice "brick" = Except.ok (-1) ∧
    FindTextureID loadedTwice "brick" = Except.ok (-1) :=
  ⟨rfl,
    by
      obtain ⟨c, hc, _, _, _, _, h⟩ :=
        (FindTextureID_agrees_with_slot loadedTwice "wood").2 0 rfl
      have hc1 : c = { tag := "wood", ID := 1 } :=
        Option.some.inj (hc.symm.trans (rfl : loadedTwice.m_textureIDs[0]? = some _))
      subst hc1
      exact h (by decide),
    rfl,
    (FindTextureID_agrees_with_slot loadedTwice "brick").1 rfl⟩

/-! ## C13: `BindGLTextures` binds entry `i` to unit `i` -/

/-- On a range inside the array the loop of `BindGLTextures` appends the
`unitBindings` of the range. -/
theorem BindGLTextures.loop_eq (cells : List TEXTURE_INFO) :
    ∀ (remaining i : Nat) (gl : List GLCall), i + remaining ≤ cells.length →
      BindGLTextures.loop cells remaining i gl =
        Except.ok (gl ++ unitBindings cells i remaining) := by
  intro remaining
  induction remaining with
  | zero => intro i gl _; simp [BindGLTextures.loop, unitBindings]
  | succ k ih =>
    intro i gl h
    have hc : cells[i]? = some cells[i] := List.getElem?_eq_getElem (by omega)
    simp only [BindGLTextures.loop, unitBindings, hc, ih (i + 1) _ (by omega),
      List.append_assoc]

/-- Two calls per cell of the range. -/
theorem unitBindings_length (cells : List TEXTURE_INFO) :
    ∀ (count start : Nat), start + count ≤ cells.length →
      (unitBindings cells start count).length = 2 * count := by
  intro count
  induction count with
  | zero => intro start _; simp [unitBindings]
  | succ k ih =>
    intro start h
    have hc : cells[start]? = some cells[start] := List.getElem?_eq_getElem (by omega)
    simp only [unitBindings, hc, List.length_append, List.length_cons, List.length_nil,
      ih (start + 1) (by omega)]
    omega

/-- The calls for the `j`-th cell of the range sit at the positions `2 * j` and
`2 * j + 1`: the unit `start + j` is activated and the handle of that cell is
bound. -/
theorem unitBindings_at (cells : List TEXTURE_INFO) :
    ∀ (count start j : Nat), start + count ≤ cells.length → j < count →
      ∃ c, cells[start + j]? = some c ∧
        (unitBindings cells start count)[2 * j]? =
          some (GLCall.glActiveTexture ((start + j : Nat) : Int)) ∧
        (unitBindings cells start count)[2 * j + 1]? =
          some (GLCall.glBindTexture GLenum.GL_TEXTURE_2D c.ID) := by
  intro count
  induction count with
  | zero => intro start j _ hj; omega
  | succ k ih =>
    intro start j h hj
    have hc : cells[start]? = some cells[start] := List.getElem?_eq_getElem (by omega)
    cases j with
    | zero =>
      refine ⟨cells[start], hc, ?_, ?_⟩
      · simp only [unitBindings, hc, List.cons_append, List.nil_append]
        simp
      · simp only [unitBindings, hc, List.cons_append, List.nil_append]
        simp
    | succ m =>
      obtain ⟨c, h1, h2, h3⟩ := ih (start + 1) m (by omega) (by omega)
      have e1 : start + 1 + m = start + (m + 1) := by omega
      rw [e1] at h1 h2
      refine ⟨c, h1, ?_, ?_⟩
      · simp only [unitBindings, hc, List.cons_append, List.nil_append]
        have e2 : 2 * (m + 1) = (2 * m) + 1 + 1 := by omega
        rw [e2, List.getElem?_cons_succ, List.getElem?_cons_succ]
        exact h2
      · simp only [unitBindings, hc, List.cons_append, List.nil_append]
        have e3 : 2 * (m + 1) + 1 = (2 * m + 1) + 1 + 1 := by omega
        rw [e3, List.getElem?_cons_succ, List.getElem?_cons_succ]
        exact h3

/-- Only the units of the range are activated. -/
theorem unitBindings_units (cells : List TEXTURE_INFO) (u : Int) :
    ∀ (count start : Nat), GLCall.glActiveTexture u ∈ unitBindings cells start count →
      (start : Int) ≤ u ∧ u < (start : Int) + count := by
  intro count
  induction count with
  | zero => intro start h; simp [unitBindings] at h
  | succ k ih =>
    intro start h
    cases hc : cells[start]? with
    | none => simp [unitBindings, hc] at h
    | some c =>
      simp only [unitBindings, hc, List.cons_append, List.nil_append, List.mem_cons] at h
      rcases h with h | h | h
      · injection h with h
        omega
      · exact GLCall.noConfusion h
      · have := ih (start + 1) h
        omega

/-- With a shader manager attached, `SetShaderTexture` passes on whatever the
slot lookup returned. -/
theorem SetShaderTexture_of_slot (s : SceneManager) (sm : ShaderManager) (t : String) (r : Int)
    (hsm : s.m_pShaderManager = some sm) (hr : FindTextureSlot s t = Except.ok r) :
    SetShaderTexture s t = Except.ok { s with
      m_pShaderManager := some { calls := sm.calls ++
        [UniformCall.setIntValue "bUseTexture" 1,
         UniformCall.setSampler2DValue "objectTexture" r] } } := by
  simp only [SetShaderTexture, hsm, hr, ShaderManager.setIntValue,
    ShaderManager.setSampler2DValue, g_UseTextureName, g_TextureValueName,
    List.append_assoc, List.singleton_append]

/-- C13. On a state whose counter `n` fits the array, `BindGLTextures` appends
exactly `2 * n` GL calls: for every `i` with `0 <= i < n` the activation of
unit `GL_TEXTURE0 + i` followed by the binding of the handle of entry `i`; no
unit outside `0 .. n - 1` is activated, and the registry is untouched.
Consequently, for a tag `t` whose first entry is `i`, the sampler index that
`SetShaderTexture t` passes to the shader is `i`, the unit to which the handle
of that entry was bound. -/
theorem BindGLTextures_binds_units (s : SceneManager)
    (hn : s.m_loadedTextures ≤ s.m_textureIDs.length) :
    ∃ added : List GLCall,
      BindGLTextures s = Except.ok { s with gl := s.gl ++ added } ∧
      added.length = 2 * s.m_loadedTextures.toNat ∧
      (∀ i : Nat, (i : Int) < s.m_loadedTextures →
        ∃ c, s.m_textureIDs[i]? = some c ∧
          added[2 * i]? = some (GLCall.glActiveTexture (i : Int)) ∧
          added[2 * i + 1]? = some (GLCall.glBindTexture GLenum.GL_TEXTURE_2D c.ID)) ∧
      (∀ u : Int, GLCall.glActiveTexture u ∈ added → 0 ≤ u ∧ u < s.m_loadedTextures) ∧
      (∀ (t : String) (i : Nat), (i : Int) < s.m_loadedTextures → tagAt s i = some t →
        (∀ j : Nat, j < i → tagAt s j ≠ some t) →
        ∃ c, s.m_textureIDs[i]? = some c ∧ c.tag = t ∧
          FindTextureSlot s t = Except.ok (i : Int) ∧
          (∀ sm, s.m_pShaderManager = some sm →
            SetShaderTexture s t = Except.ok { s with
              m_pShaderManager := some { calls := sm.calls ++
                [UniformCall.setIntValue "bUseTexture" 1,
                 UniformCall.setSampler2DValue "objectTexture" (i : Int)] } }) ∧
          added[2 * i]? = some (GLCall.glActiveTexture (i : Int)) ∧
          added[2 * i + 1]? = some (GLCall.glBindTexture GLenum.GL_TEXTURE_2D c.ID)) := by
  have hlen : 0 + s.m_loadedTextures.toNat ≤ s.m_textureIDs.length := by omega
  have hat : ∀ i : Nat, (i : Int) < s.m_loadedTextures →
      ∃ c, s.m_textureIDs[i]? = some c ∧
        (unitBindings s.m_textureIDs 0 s.m_loadedTextures.toNat)[2 * i]? =
          some (GLCall.glActiveTexture (i : Int)) ∧
        (unitBindings s.m_textureIDs 0 s.m_loadedTextures.toNat)[2 * i + 1]? =
          some (GLCall.glBindTexture GLenum.GL_TEXTURE_2D c.ID) := by
    intro i hi
    obtain ⟨c, h1, h2, h3⟩ :=
      unitBindings_at s.m_textureIDs s.m_loadedTextures.toNat 0 i hlen (by omega)
    rw [Nat.zero_add] at h1 h2
    exact ⟨c, h1, h2, h3⟩
  refine ⟨unitBindings s.m_textureIDs 0 s.m_loadedTextures.toNat, ?_,
    unitBindings_length s.m_textureIDs _ 0 hlen, hat, fun u hu => ?_, fun t i hi ht hmin => ?_⟩
  · simp only [BindGLTextures, BindGLTextures.loop_eq s.m_textureIDs _ 0 s.gl hlen]
  · have := unitBindings_units s.m_textureIDs u _ 0 hu
    omega
  · obtain ⟨c, h1, h2, h3⟩ := hat i hi
    obtain ⟨d, hd, hdt⟩ := (tagAt_eq_some s i t).1 ht
    have hcd : c = d := Option.some.inj (h1.symm.trans hd)
    subst hcd
    have hslot := FindTextureSlot_of_first s t i hn hi ht hmin
    exact ⟨c, h1, hdt, hslot, fun sm hsm => SetShaderTexture_of_slot s sm t _ hsm hslot, h2, h3⟩

/-- C13, witness: with two textures loaded (handles 1 and 2), `BindGLTextures`
appends four calls, and the second pair activates unit 1 and binds handle 2. -/
theorem BindGLTextures_binds_units_witness :
    ∃ added : List GLCall,
      BindGLTextures loadedTwice = Except.ok { loadedTwice with gl := loadedTwice.gl ++ added } ∧
      added.length = 4 ∧
      ∃ c, loadedTwice.m_textureIDs[1]? = some c ∧
        added[2]? = some (GLCall.glActiveTexture 1) ∧
        added[3]? = some (GLCall.glBindTexture GLenum.GL_TEXTURE_2D c.ID) := by
  obtain ⟨added, h1, h2, h3, _⟩ := BindGLTextures_binds_units loadedTwice (by decide)
  exact ⟨added, h1, h2, h3 1 (by decide)⟩

/-! ## C14: `DestroyGLTextures` deletes nothing -/

/-- C14 (the code at the failing input). With two textures loaded (handles 1
and 2), `DestroyGLTextures` issues two GL calls, both `glGenTextures`: no
texture is deleted, two new textures (names 3 and 4) are created, and their
names replace the handles in the registry, so the textures 1 and 2 stay alive
and are no longer referenced. -/
theorem DestroyGLTextures_generates_instead_of_deleting :
    loadedTwice.m_textureIDs.take 2 =
      [{ tag := "wood", ID := 1 }, { tag := "wood", ID := 2 }] ∧
    ∃ s2, DestroyGLTextures sampleEnv loadedTwice = Except.ok s2 ∧
      s2.gl = loadedTwice.gl ++ [GLCall.glGenTextures 1 3, GLCall.glGenTextures 1 4] ∧
      s2.m_textureIDs.take 2 = [{ tag := "wood", ID := 3 }, { tag := "wood", ID := 4 }] :=
  ⟨rfl, _, rfl, rfl, rfl⟩

/-! ## Lemmas on carrying out calls -/

/-- Assignments to other uniforms leave the model matrix in force. -/
theorem modelInForce_append (calls extra : List UniformCall) :
    modelInForce (calls ++ extra) =
      extra.foldl
        (fun current c =>
          match c with
          | UniformCall.setMat4Value name value =>
            if name = g_ModelName then some value else current
          | _ => current)
        (modelInForce calls) := by
  simp only [modelInForce, List.foldl_append]

/-- One call on a ready state: it returns, the shader manager receives some
further assignments `extra`, nothing else of the scene changes, a draw is
recorded with the assignments received before it, and the model matrix in force
afterwards is `nextModel`. -/
theorem perform_ready (material0 : OBJECT_MATERIAL) (c : Call) (r : RenderState)
    (sm : ShaderManager) (hsm : r.scene.m_pShaderManager = some sm)
    (hn : r.scene.m_loadedTextures ≤ r.scene.m_textureIDs.length) :
    ∃ extra : List UniformCall,
      perform material0 c r = Except.ok
        { scene := { r.scene with m_pShaderManager := some { calls := sm.calls ++ extra } }
          m_basicMeshes := r.m_basicMeshes ++ drawOf sm.calls c } ∧
      modelInForce (sm.calls ++ extra) = nextModel (modelInForce sm.calls) c := by
  cases c with
  | SetTransformations scaleXYZ x y z positionXYZ =>
    refine ⟨[UniformCall.setMat4Value g_ModelName
      { scaleXYZ := scaleXYZ, XrotationDegrees := x, YrotationDegrees := y,
        ZrotationDegrees := z, positionXYZ := positionXYZ }], ?_, ?_⟩
    · simp only [perform, SetTransformations, hsm, ShaderManager.setMat4Value, drawOf,
        List.append_nil]
    · simp [modelInForce_append, nextModel]
  | SetShaderColor red green blue alpha =>
    refine ⟨[UniformCall.setIntValue g_UseTextureName 0,
      UniformCall.setVec4Value g_ColorValueName (red, green, blue, alpha)], ?_, ?_⟩
    · simp only [perform, SetShaderColor, hsm, ShaderManager.setIntValue,
        ShaderManager.setVec4Value, drawOf, List.append_nil, List.append_assoc,
        List.singleton_append]
    · simp [modelInForce_append, nextModel]
  | SetShaderTexture textureTag =>
    have hslot : ∃ slot : Int, FindTextureSlot r.scene textureTag = Except.ok slot := by
      rcases FindTextureSlot_cases r.scene textureTag hn with ⟨i, _, _, _, h4⟩ | ⟨_, h4⟩
      · exact ⟨_, h4⟩
      · exact ⟨_, h4⟩
    obtain ⟨slot, hslot⟩ := hslot
    refine ⟨[UniformCall.setIntValue "bUseTexture" 1,
      UniformCall.setSampler2DValue "objectTexture" slot], ?_, ?_⟩
    · simp only [perform, SetShaderTexture_of_slot r.scene sm textureTag slot hsm hslot, drawOf,
        List.append_nil]
    · simp [modelInForce_append, nextModel]
  | SetTextureUVScale u v =>
    refine ⟨[UniformCall.setVec2Value "UVscale" (u, v)], ?_, ?_⟩
    · simp only [perform, SetTextureUVScale, hsm, ShaderManager.setVec2Value, drawOf,
        List.append_nil]
    · simp [modelInForce_append, nextModel]
  | SetShaderMaterial materialTag =>
    by_cases hlen : r.scene.m_objectMaterials.length > 0
    · have hflag : (FindMaterial r.scene materialTag material0).1 = true :=
        (FindMaterial_flag r.scene materialTag material0).2
          (fun h0 => by rw [h0] at hlen; simp at hlen)
      refine ⟨[UniformCall.setVec3Value "material.diffuseColor"
          (FindMaterial r.scene materialTag material0).2.diffuseColor,
        UniformCall.setVec3Value "material.specularColor"
          (FindMaterial r.scene materialTag material0).2.specularColor,
        UniformCall.setFloatValue "material.shininess"
          (FindMaterial r.scene materialTag material0).2.shininess], ?_, ?_⟩
      · simp only [perform, SetShaderMaterial, if_pos hlen, hflag, hsm,
          ShaderManager.setVec3Value, ShaderManager.setFloatValue, drawOf, List.append_nil,
          List.append_assoc, List.singleton_append, List.cons_append, List.nil_append, if_true]
      · simp [modelInForce_append, nextModel]
    · refine ⟨[], ?_, ?_⟩
      · simp only [perform, SetShaderMaterial, if_neg hlen, drawOf, List.append_nil]
        congr
        cases hs : r.scene with
        | mk p cells n materials gl =>
          rw [hs] at hsm
          simp only at hsm
          simp only [hsm]
      · simp [nextModel]
  | Draw mesh =>
    refine ⟨[], ?_, ?_⟩
    · simp only [perform, uniformCalls, hsm, drawOf, List.append_nil]
      congr
      cases hs : r.scene with
      | mk p cells n materials gl =>
        rw [hs] at hsm
        simp only at hsm
        simp only [hsm]
    · simp [nextModel]

/-- The draws of a list of calls, split at its first call. -/
theorem transformedDraws_cons (current : Option ModelView) (uniforms : List UniformCall)
    (c : Call) (rest : List Call) :
    transformedDraws current (c :: rest) =
      (drawOf uniforms c).map (fun d => (d.mesh, current)) ++
        transformedDraws (nextModel current c) rest := by
  cases c <;> rfl

/-- A sequence of calls on a ready state: it returns, the state stays ready,
the registries are untouched, and the draws recorded are the draws of the
sequence, each under the model matrix of the `SetTransformations` call before
it. -/
theorem performAll_ready (material0 : OBJECT_MATERIAL) :
    ∀ (calls : List Call) (r : RenderState), ready r →
      ∃ r1, performAll material0 calls r = Except.ok r1 ∧ ready r1 ∧
        sameRegistry r.scene r1.scene ∧
        r1.scene.m_objectMaterials = r.scene.m_objectMaterials ∧
        observedDraws r1 =
          observedDraws r ++ transformedDraws (modelInForce (uniformCalls r.scene)) calls := by
  intro calls
  induction calls with
  | nil =>
    intro r h
    exact ⟨r, rfl, h, ⟨rfl, rfl⟩, rfl, by simp [transformedDraws]⟩
  | cons c rest ih =>
    intro r h
    obtain ⟨⟨sm, hsm⟩, hn⟩ := h
    obtain ⟨extra, hperform, hmodel⟩ := perform_ready material0 c r sm hsm hn
    have hready : ready
        { scene := { r.scene with m_pShaderManager := some { calls := sm.calls ++ extra } }
          m_basicMeshes := r.m_basicMeshes ++ drawOf sm.calls c } :=
      ⟨⟨_, rfl⟩, hn⟩
    obtain ⟨r1, h1, h2, h3, h4, h5⟩ := ih _ hready
    refine ⟨r1, ?_, h2, h3, h4, ?_⟩
    · simp only [performAll, hperform, h1]
    · rw [h5, transformedDraws_cons _ sm.calls c rest]
      have hu : uniformCalls r.scene = sm.calls := by simp only [uniformCalls, hsm]
      have hu1 : uniformCalls
          { r.scene with m_pShaderManager := some { calls := sm.calls ++ extra } } =
            sm.calls ++ extra := rfl
      rw [hu, hu1, hmodel]
      simp only [observedDraws, List.map_append, List.append_assoc, List.append_cancel_left_eq]
      congr 1
      cases c <;> simp [drawOf]

/-- The draws of `RenderScene` do not depend on the model matrix in force
before: its first call is a `SetTransformations`. -/
theorem sceneDraws_of_any (current : Option ModelView) :
    transformedDraws current (callsOf RenderScene) = sceneDraws := by
  have h : callsOf RenderScene =
      Call.SetTransformations (1.0, 2.5, 1.0) 0.0 0.0 0.0 (-2.5, 0.0, 1.8) ::
        (callsOf RenderScene).tail := by decide!
  unfold sceneDraws
  rw [h]
  rfl

/-! ## C15: the calls before each draw -/

/-- C15 (counterexample). The only draw of `RenderBackDrop` is preceded by a
`SetTransformations`, a `SetShaderTexture` and a `SetTextureUVScale` call and
by no `SetShaderMaterial` call, so not every draw of `RenderScene` follows the
pattern transformation, texture, material. -/
theorem RenderBackDrop_draw_without_material :
    segments RenderBackDrop =
      [[Call.SetTransformations (50.0, 50.0, 50.0) 90.0 0.0 0.0 (0.0, 0.0, -10.0),
        Call.SetShaderTexture "backdrop",
        Call.SetTextureUVScale 1.0 1.0]] ∧
    materialTags (callsOf RenderBackDrop) = [] ∧
    ¬ (∀ seg ∈ segments RenderScene, followsPattern seg = true) := by
  decide!

/-- C15 (amended). `RenderScene` issues 88 draws, those of its eight render
functions in order.  Every draw is preceded, since the preceding draw or the
start of its render function, by a `SetTransformations` call, which is the
first call of the segment.  For every draw other than the backdrop plane, the
first draw of `RenderPhoneHolder` (the base) and the last two draws of
`RenderMonitors` (the screens), a `SetShaderTexture` call and then a
`SetShaderMaterial` call follow before the draw.  The two screens are drawn
after `SetTransformations` and `SetShaderColor` only. -/
theorem RenderScene_draw_pattern :
    segments RenderScene =
      segments RenderWaterBottle ++ segments RenderBackDrop ++ segments RenderPhoneHolder ++
        segments RenderDesk ++ segments RenderBook ++ segments RenderMonitors ++
        segments RenderMouse ++ segments RenderKeyBoard ∧
    (segments RenderScene).length = 88 ∧
    (∀ seg ∈ segments RenderScene, startsWithTransform seg = true) ∧
    (∀ seg ∈ segments RenderWaterBottle ++ (segments RenderPhoneHolder).tail ++
        segments RenderDesk ++ segments RenderBook ++ (segments RenderMonitors).take 6 ++
        segments RenderMouse ++ segments RenderKeyBoard, followsPattern seg = true) ∧
    (segments RenderMonitors).drop 6 =
      [[Call.SetTransformations (10.0, 5.0, 0.1) 0.0 (-15.0) 0.0 (7.9, 6.0, -3.66),
        Call.SetShaderColor 1.0 1.0 1.0 1.0],
       [Call.SetTransformations (10.0, 5.0, 0.1) 0.0 15.0 0.0 (-7.9, 6.0, -3.66),
        Call.SetShaderColor 1.0 1.0 1.0 1.0]] := by
  decide!

/-! ## C16: the draws of the scene are fixed -/

/-- C16. On any two states with a shader manager attached and a texture
registry whose counter fits the array, whatever the texture and material
registries hold, `RenderScene` returns and records the same sequence of draws,
each under the model matrix built from the scale, rotation and position
arguments of the `SetTransformations` call before it: the sequence
`sceneDraws`.  It has exactly 88 draws, every one preceded by a
`SetTransformations` call, and it is the draws of the water bottle (3), the
backdrop (1), the phone holder (9), the desk (3), the book (1), the monitors
(8), the mouse (2) and the keyboard (61), in this order. -/
theorem RenderScene_fixed_sequence (material1 material2 : OBJECT_MATERIAL)
    (r1 r2 : RenderState) (h1 : ready r1) (h2 : ready r2) :
    (∃ q1 q2, render material1 RenderScene r1 = Except.ok q1 ∧
      render material2 RenderScene r2 = Except.ok q2 ∧
      observedDraws q1 = observedDraws r1 ++ sceneDraws ∧
      observedDraws q2 = observedDraws r2 ++ sceneDraws) ∧
    sceneDraws.length = 88 ∧
    (∀ d ∈ sceneDraws, d.2 ≠ none) ∧
    sceneDraws =
      transformedDraws none (callsOf RenderWaterBottle) ++
        transformedDraws none (callsOf RenderBackDrop) ++
        transformedDraws none (callsOf RenderPhoneHolder) ++
        transformedDraws none (callsOf RenderDesk) ++
        transformedDraws none (callsOf RenderBook) ++
        transformedDraws none (callsOf RenderMonitors) ++
        transformedDraws none (callsOf RenderMouse) ++
        transformedDraws none (callsOf RenderKeyBoard) ∧
    [callsOf RenderWaterBottle, callsOf RenderBackDrop, callsOf RenderPhoneHolder,
      callsOf RenderDesk, callsOf RenderBook, callsOf RenderMonitors, callsOf RenderMouse,
      callsOf RenderKeyBoard].map (fun calls => (transformedDraws none calls).length) =
        [3, 1, 9, 3, 1, 8, 2, 61] := by
  refine ⟨?_, by decide!, by decide!, by decide!, by decide!⟩
  obtain ⟨q1, hq1, _, _, _, ho1⟩ := performAll_ready material1 (callsOf RenderScene) r1 h1
  obtain ⟨q2, hq2, _, _, _, ho2⟩ := performAll_ready material2 (callsOf RenderScene) r2 h2
  rw [sceneDraws_of_any] at ho1 ho2
  exact ⟨q1, q2, hq1, hq2, ho1, ho2⟩

/-- C16, witness: a manager without textures and materials and a manager with
two textures and the five materials record the same 88 draws. -/
theorem RenderScene_fixed_sequence_witness :
    ∃ q1 q2,
      render zeroMaterial RenderScene { scene := fresh, m_basicMeshes := [] } = Except.ok q1 ∧
      render zeroMaterial RenderScene
        { scene := DefineObjectMaterials loadedTwice, m_basicMeshes := [] } = Except.ok q2 ∧
      observedDraws q1 = [] ++ sceneDraws ∧
      observedDraws q2 = [] ++ sceneDraws :=
  (RenderScene_fixed_sequence zeroMaterial zeroMaterial
    { scene := fresh, m_basicMeshes := [] }
    { scene := DefineObjectMaterials loadedTwice, m_basicMeshes := [] }
    ⟨⟨freshShader, rfl⟩, by decide⟩ ⟨⟨freshShader, rfl⟩, by decide⟩).1

/-! ## C18: a texture tag that is not registered -/

/-- C18 (the code at the failing input). `LoadSceneTextures` on a fresh
manager, all thirteen files decoding, registers thirteen tags; the image
`textures/drywall.jpg` is registered under the tag "body".  `RenderScene`
passes the tag "drywall" to `SetShaderTexture` (in `RenderPhoneHolder`, for the
body of the holder), which is not registered: `FindTextureSlot "drywall"`
returns -1, and on the state with these textures and the materials of
`DefineObjectMaterials` the ninth draw of the scene, a box, is issued with
texturing switched on and the sampler set to -1. -/
theorem RenderScene_draws_with_unregistered_texture :
    LoadSceneTextures sampleEnv fresh = Except.ok loadedScene ∧
    loadedScene.m_loadedTextures = 13 ∧
    "drywall" ∈ textureTags (callsOf RenderPhoneHolder) ∧
    "drywall" ∈ textureTags (callsOf RenderScene) ∧
    FindTextureSlot loadedScene "drywall" = Except.ok (-1) ∧
    FindTextureSlot loadedScene "body" = Except.ok 12 ∧
    (render zeroMaterial RenderScene preparedScene).map
        (fun r => (r.m_basicMeshes[8]?).map
          (fun d => (d.mesh, useTextureInForce d.uniforms, samplerInForce d.uniforms))) =
      Except.ok (some (MeshCall.DrawBoxMesh, some 1, some (-1))) := by
  decide!

/-! ## C19: the materials the scene uses are defined -/

/-- C19. After `DefineObjectMaterials` on an empty material registry the
registry holds the tags metal, wooden, glass, plate, book, which are pairwise
distinct; the material tags `RenderScene` passes to `SetShaderMaterial` are
exactly wooden, glass, plate and book; and `FindMaterial` finds each of them,
filling in exactly the diffuse colour, specular colour and shininess that
`DefineObjectMaterials` gave the record with that tag. -/
theorem DefineObjectMaterials_serves_scene (s0 : SceneManager)
    (h0 : s0.m_objectMaterials = []) :
    (DefineObjectMaterials s0).m_objectMaterials.map OBJECT_MATERIAL.tag =
      ["metal", "wooden", "glass", "plate", "book"] ∧
    ((DefineObjectMaterials s0).m_objectMaterials.map OBJECT_MATERIAL.tag).Nodup ∧
    (∀ t ∈ materialTags (callsOf RenderScene), t ∈ ["wooden", "glass", "plate", "book"]) ∧
    (∀ t ∈ ["wooden", "glass", "plate", "book"], t ∈ materialTags (callsOf RenderScene)) ∧
    (∀ material : OBJECT_MATERIAL,
      FindMaterial (DefineObjectMaterials s0) "wooden" material =
        (true, { material with diffuseColor := (0.4, 0.2, 0.1),
                               specularColor := (0.2, 0.2, 0.2), shininess := 0.1 }) ∧
      FindMaterial (DefineObjectMaterials s0) "glass" material =
        (true, { material with diffuseColor := (0.2, 0.2, 0.2),
                               specularColor := (1.0, 1.0, 1.0), shininess := 95.0 }) ∧
      FindMaterial (DefineObjectMaterials s0) "plate" material =
        (true, { material with diffuseColor := (0.4, 0.4, 0.4),
                               specularColor := (0.2, 0.2, 0.2), shininess := 30.0 }) ∧
      FindMaterial (DefineObjectMaterials s0) "book" material =
        (true, { material with diffuseColor := (0.6, 0.3, 0.1),
                               specularColor := (0.2, 0.2, 0.2), shininess := 10.0 })) := by
  have hm : (DefineObjectMaterials s0).m_objectMaterials =
      [{ diffuseColor := (0.8, 0.8, 0.0), specularColor := (1.0, 1.0, 0.8),
         shininess := 60.0, tag := "metal" },
       { diffuseColor := (0.4, 0.2, 0.1), specularColor := (0.2, 0.2, 0.2),
         shininess := 0.1, tag := "wooden" },
       { diffuseColor := (0.2, 0.2, 0.2), specularColor := (1.0, 1.0, 1.0),
         shininess := 95.0, tag := "glass" },
       { diffuseColor := (0.4, 0.4, 0.4), specularColor := (0.2, 0.2, 0.2),
         shininess := 30.0, tag := "plate" },
       { diffuseColor := (0.6, 0.3, 0.1), specularColor := (0.2, 0.2, 0.2),
         shininess := 10.0, tag := "book" }] := by
    simp only [DefineObjectMaterials, push_back, h0, List.nil_append, List.cons_append,
      List.singleton_append]
  have htags : (DefineObjectMaterials s0).m_objectMaterials.map OBJECT_MATERIAL.tag =
      ["metal", "wooden", "glass", "plate", "book"] := by
    rw [hm]; rfl
  refine ⟨htags, ?_, by decide!, by decide!, fun material => ?_⟩
  · rw [htags]; decide
  · have hlen : ¬ (DefineObjectMaterials s0).m_objectMaterials.length = 0 := by
      rw [hm]; decide
    refine ⟨?_, ?_, ?_, ?_⟩ <;>
      · simp only [FindMaterial, if_neg hlen]
        rw [hm]
        rfl

/-- C19, witness: on the fresh manager, whose material registry is empty,
`FindMaterial "plate"` fills in the values of the plate record. -/
theorem DefineObjectMaterials_serves_scene_witness :
    fresh.m_objectMaterials = [] ∧
    FindMaterial (DefineObjectMaterials fresh) "plate" zeroMaterial =
      (true, { zeroMaterial with diffuseColor := (0.4, 0.4, 0.4),
                                 specularColor := (0.2, 0.2, 0.2), shininess := 30.0 }) :=
  ⟨rfl, ((DefineObjectMaterials_serves_scene fresh rfl).2.2.2.2 zeroMaterial).2.2.1⟩

/-! ## C20: the keys of the keyboard -/

/-- Keys in different columns are at least 0.85 apart in x, keys in different
rows at least 0.85 apart in z. -/
theorem keyCentre_apart (row col row1 col1 : Nat) (h : (row, col) ≠ (row1, col1)) :
    |(keyCentre row col).1 - (keyCentre row1 col1).1| ≥ 0.85 ∨
    |(keyCentre row col).2.2 - (keyCentre row1 col1).2.2| ≥ 0.85 := by
  have hne : col ≠ col1 ∨ row ≠ row1 := by
    by_contra hc
    push_neg at hc
    exact h (by rw [hc.1, hc.2])
  simp only [keyCentre]
  rcases hne with hcol | hrow
  · left
    rcases Nat.lt_or_gt_of_ne hcol with hlt | hgt
    · have hq : (col : ℚ) + 1 ≤ (col1 : ℚ) := by exact_mod_cast hlt
      rw [abs_sub_comm]
      have := le_abs_self ((-4.6 : ℚ) + 0.85 * (col1 : ℚ) - (-4.6 + 0.85 * (col : ℚ)))
      norm_num at this ⊢
      linarith
    · have hq : (col1 : ℚ) + 1 ≤ (col : ℚ) := by exact_mod_cast hgt
      have := le_abs_self ((-4.6 : ℚ) + 0.85 * (col : ℚ) - (-4.6 + 0.85 * (col1 : ℚ)))
      norm_num at this ⊢
      linarith
  · right
    rcases Nat.lt_or_gt_of_ne hrow with hlt | hgt
    · have hq : (row : ℚ) + 1 ≤ (row1 : ℚ) := by exact_mod_cast hlt
      have := le_abs_self ((7.6 : ℚ) - 0.85 * (row : ℚ) - (7.6 - 0.85 * (row1 : ℚ)))
      norm_num at this ⊢
      linarith
    · have hq : (row1 : ℚ) + 1 ≤ (row : ℚ) := by exact_mod_cast hgt
      rw [abs_sub_comm]
      have := le_abs_self ((7.6 : ℚ) - 0.85 * (row1 : ℚ) - (7.6 - 0.85 * (row : ℚ)))
      norm_num at this ⊢
      linarith

/-- C20. `RenderKeyBoard` draws the base box and then exactly 60 key boxes, one
for each row 0 to 4 and column 0 to 11 in row-major order (the key of row `row`
and column `col` is draw number `12 * row + col` of the keys), each with scale
(0.8, 0.2, 0.8), zero rotation and, over the rationals, the centre
`(-4.6 + 0.85 * col, 0.55, 7.6 - 0.85 * row)`.  Different (row, col) pairs give
different centres, at least 0.85 apart in x or in z. -/
theorem RenderKeyBoard_draws_keys :
    transformedDraws none (callsOf RenderKeyBoard) = keyboardBaseDraw :: keyDraws ∧
    keyDraws.length = 60 ∧
    (∀ row, row < 5 → ∀ col, col < 12 → keyDraws[12 * row + col]? = some (keyDraw row col)) ∧
    (∀ row col row1 col1 : Nat, (row, col) ≠ (row1, col1) →
      keyCentre row col ≠ keyCentre row1 col1 ∧
      (|(keyCentre row col).1 - (keyCentre row1 col1).1| ≥ 0.85 ∨
       |(keyCentre row col).2.2 - (keyCentre row1 col1).2.2| ≥ 0.85)) := by
  refine ⟨by decide!, by decide!, by decide!, fun row col row1 col1 h => ?_⟩
  have hapart := keyCentre_apart row col row1 col1 h
  refine ⟨fun heq => ?_, hapart⟩
  rw [heq] at hapart
  norm_num at hapart

/-- C20, witness: the key of row 1 and column 2 is draw number 14 of the keys,
and it is centred away from the key of row 1 and column 3. -/
theorem RenderKeyBoard_draws_keys_witness :
    keyDraws[12 * 1 + 2]? = some (keyDraw 1 2) ∧ keyCentre 1 2 ≠ keyCentre 1 3 :=
  ⟨RenderKeyBoard_draws_keys.2.2.1 1 (by decide) 2 (by decide),
    (RenderKeyBoard_draws_keys.2.2.2 1 2 1 3 (by decide)).1⟩

/-! ## C17: `LoadSceneTextures` stays inside the array -/

/-- The tags of the successful loads are at most as many as the loads. -/
theorem loadedTags_length_le (env : Env) :
    ∀ calls : List (String × String), (loadedTags env calls).length ≤ calls.length := by
  intro calls
  induction calls with
  | nil => simp [loadedTags]
  | cons call rest ih =>
    obtain ⟨filename, tag⟩ := call
    by_cases h : loads env filename = true
    · simp only [loadedTags, if_pos h, List.length_cons]
      omega
    · simp only [loadedTags, if_neg h, List.length_cons]
      omega

/-- A load that does not succeed returns false and leaves everything but the
GL record as it was. -/
theorem CreateGLTexture_of_not_loads (env : Env) (filename tag : String) (s : SceneManager)
    (h : loads env filename = false) :
    ∃ s1, CreateGLTexture env filename tag s = Except.ok (false, s1) ∧
      s1.m_loadedTextures = s.m_loadedTextures ∧ s1.m_textureIDs = s.m_textureIDs := by
  unfold loads at h
  cases hl : env.stbi_load filename with
  | none => exact ⟨s, CreateGLTexture_not_loaded env filename tag s hl, rfl, rfl⟩
  | some image =>
    rw [hl] at h
    have hch : ¬ (image.colorChannels = 3 ∨ image.colorChannels = 4) := by
      simpa using h
    exact ⟨_, CreateGLTexture_bad_channels env filename tag s image hl
      ((texImageCall_eq_none image).2 hch), rfl, rfl⟩

/-- A load that succeeds on a state with a free cell leaves the state
`registered`. -/
theorem CreateGLTexture_of_loads (env : Env) (filename tag : String) (s : SceneManager)
    (h : loads env filename = true)
    (h0 : 0 ≤ s.m_loadedTextures) (hlt : s.m_loadedTextures < s.m_textureIDs.length) :
    ∃ upload, CreateGLTexture env filename tag s =
      Except.ok (true, registered env tag upload s) := by
  unfold loads at h
  cases hl : env.stbi_load filename with
  | none => rw [hl] at h; exact absurd h (by decide)
  | some image =>
    rw [hl] at h
    have hch : image.colorChannels = 3 ∨ image.colorChannels = 4 := by simpa using h
    obtain ⟨upload, hc⟩ := texImageCall_of_channels image hch
    exact ⟨upload, CreateGLTexture_registers env filename tag s image upload hl hc h0 hlt⟩

/-- A run of loads that fits the free cells of the array: it returns, the
counter grows by the number of successful loads, their tags fill the cells from
the old counter on in call order, and every other cell is left as it was. -/
theorem createAll_fills (env : Env) :
    ∀ (calls : List (String × String)) (s : SceneManager),
      0 ≤ s.m_loadedTextures →
      s.m_loadedTextures + calls.length ≤ s.m_textureIDs.length →
      ∃ s1, createAll env calls s = Except.ok s1 ∧
        s1.m_loadedTextures = s.m_loadedTextures + (loadedTags env calls).length ∧
        s1.m_textureIDs.length = s.m_textureIDs.length ∧
        (∀ k : Nat, k < (loadedTags env calls).length →
          tagAt s1 (s.m_loadedTextures.toNat + k) = (loadedTags env calls)[k]?) ∧
        (∀ i : Nat, i < s.m_loadedTextures.toNat ∨
            s.m_loadedTextures.toNat + (loadedTags env calls).length ≤ i →
          s1.m_textureIDs[i]? = s.m_textureIDs[i]?) := by
  intro calls
  induction calls with
  | nil =>
    intro s _ _
    exact ⟨s, rfl, by simp [loadedTags], rfl, fun k hk => by simp [loadedTags] at hk,
      fun _ _ => rfl⟩
  | cons call rest ih =>
    intro s h0 hfit
    obtain ⟨filename, tag⟩ := call
    simp only [List.length_cons, Nat.cast_add, Nat.cast_one] at hfit
    by_cases h : loads env filename = true
    · obtain ⟨upload, hc⟩ := CreateGLTexture_of_loads env filename tag s h h0 (by omega)
      have hlt1 : s.m_loadedTextures.toNat < s.m_textureIDs.length := by omega
      have hlen : (registered env tag upload s).m_textureIDs.length = s.m_textureIDs.length := by
        simp [registered]
      have hcnt : (registered env tag upload s).m_loadedTextures = s.m_loadedTextures + 1 := rfl
      obtain ⟨s1, h1, h2, h3, h4, h5⟩ := ih (registered env tag upload s)
        (by rw [hcnt]; omega) (by rw [hcnt, hlen]; omega)
      rw [hcnt] at h2 h4 h5
      have htoNat : (s.m_loadedTextures + 1).toNat = s.m_loadedTextures.toNat + 1 := by omega
      rw [htoNat] at h4 h5
      refine ⟨s1, ?_, ?_, by rw [h3, hlen], fun k hk => ?_, fun i hi => ?_⟩
      · simp only [createAll, hc, h1]
      · simp only [loadedTags, if_pos h, List.length_cons, Nat.cast_add, Nat.cast_one]
        rw [h2]; omega
      · simp only [loadedTags, if_pos h, List.length_cons] at hk ⊢
        cases k with
        | zero =>
          have hcell := h5 s.m_loadedTextures.toNat (Or.inl (by omega))
          simp only [tagAt, Nat.add_zero, hcell, registered_cell_self env tag upload s hlt1,
            Option.map_some', List.getElem?_cons_zero]
        | succ m =>
          have := h4 m (by omega)
          rw [List.getElem?_cons_succ, ← this]
          congr 1
          omega
      · simp only [loadedTags, if_pos h, List.length_cons] at hi
        rw [h5 i (by omega), registered_cell_other env tag upload s i (by omega)]
    · have hfalse : loads env filename = false := by simpa using h
      obtain ⟨s2, hc, hn2, hcells2⟩ := CreateGLTexture_of_not_loads env filename tag s hfalse
      obtain ⟨s1, h1, h2, h3, h4, h5⟩ := ih s2 (by rw [hn2]; exact h0)
        (by rw [hn2, hcells2]; omega)
      rw [hn2] at h2 h4 h5
      rw [hcells2] at h3 h5
      refine ⟨s1, ?_, ?_, h3, ?_, ?_⟩
      · simp only [createAll, hc, h1]
      · simp only [loadedTags, if_neg h]; exact h2
      · simp only [loadedTags, if_neg h]; exact h4
      · simp only [loadedTags, if_neg h]; exact h5

/-- C17. On a freshly constructed manager, whatever subset of the thirteen
image files decodes, `LoadSceneTextures` returns; afterwards the counter equals
the number of successful loads, which is at most 13, the `k`-th successfully
loaded tag in call order occupies slot `k - 1`, every cell at or above the
counter, in particular every cell at an index of 13 or more, still holds what
the constructor put there, and the array has its 16 cells. -/
theorem LoadSceneTextures_fills_slots (env : Env) (pShaderManager : Option ShaderManager)
    (gl : List GLCall) :
    ∃ s1, LoadSceneTextures env (SceneManager.new pShaderManager gl) = Except.ok s1 ∧
      s1.m_loadedTextures = (loadedTags env sceneTextures).length ∧
      (loadedTags env sceneTextures).length ≤ 13 ∧
      (∀ k : Nat, k < (loadedTags env sceneTextures).length →
        tagAt s1 k = (loadedTags env sceneTextures)[k]?) ∧
      (∀ i : Nat, (loadedTags env sceneTextures).length ≤ i →
        s1.m_textureIDs[i]? = (SceneManager.new pShaderManager gl).m_textureIDs[i]?) ∧
      (∀ i : Nat, 13 ≤ i →
        s1.m_textureIDs[i]? = (SceneManager.new pShaderManager gl).m_textureIDs[i]?) ∧
      s1.m_textureIDs.length = 16 := by
  have hle : (loadedTags env sceneTextures).length ≤ 13 := loadedTags_length_le env sceneTextures
  obtain ⟨s2, h1, h2, h3, h4, h5⟩ := createAll_fills env sceneTextures
    (SceneManager.new pShaderManager gl) (by simp [SceneManager.new])
    (by simp [SceneManager.new, textureCapacity, sceneTextures])
  have hnew : (SceneManager.new pShaderManager gl).m_loadedTextures = 0 := rfl
  have hlen : (SceneManager.new pShaderManager gl).m_textureIDs.length = 16 := by
    simp [SceneManager.new, textureCapacity]
  rw [hnew] at h2 h4 h5
  simp only [Int.toNat_zero, Nat.zero_add, Int.zero_add] at h2 h4 h5
  rw [hlen] at h3
  have hfit : 0 + s2.m_loadedTextures.toNat ≤ s2.m_textureIDs.length := by omega
  refine ⟨{ s2 with gl := s2.gl ++ unitBindings s2.m_textureIDs 0 s2.m_loadedTextures.toNat },
    ?_, h2, hle, h4, fun i hi => h5 i (Or.inr hi), fun i hi => h5 i (Or.inr (by omega)), h3⟩
  simp only [LoadSceneTextures, h1, BindGLTextures,
    BindGLTextures.loop_eq s2.m_textureIDs _ 0 s2.gl hfit]

/-- C17, witness: in the sample environment all thirteen files decode; the
counter is 13, the slots hold the thirteen tags in call order and the cells 13
to 15 still hold the constructor's placeholder. -/
theorem LoadSceneTextures_fills_slots_witness :
    LoadSceneTextures sampleEnv fresh = Except.ok loadedScene ∧
    loadedScene.m_loadedTextures = 13 ∧
    (loadedScene.m_textureIDs.take 13).map TEXTURE_INFO.tag =
      ["silverBase", "metallicSilver", "rubber", "grayHolder", "wood", "knife", "stained",
       "backdrop", "keyboard", "mouse", "waterBottle", "book", "body"] ∧
    loadedScene.m_textureIDs.drop 13 =
      List.replicate 3 { tag := "/0", ID := 4294967295 } ∧
    ∃ s1, LoadSceneTextures sampleEnv (SceneManager.new (some freshShader) []) = Except.ok s1 ∧
      s1.m_loadedTextures = (loadedTags sampleEnv sceneTextures).length :=
  ⟨by decide!, by decide!, by decide!, by decide!,
    (LoadSceneTextures_fills_slots sampleEnv (some freshShader) []).imp
      (fun _ h => ⟨h.1, h.2.1⟩)⟩

/-! ## C21: the last row of keys overhangs the base -/

/-- C21 (the code at the failing input). The draws of `RenderKeyBoard` are the
base and the 60 keys.  With the box mesh a unit cube centred at the origin, the
base covers [-5.0, 5.2] in x and [4.0, 8.0] in z.  The key of row 4 and column 0
covers [-5.0, -4.2] in x and [3.8, 4.6] in z: it reaches 0.2 beyond the front
edge of the base.  Every key lies within the base in x; the keys that do not lie
on the base are exactly the twelve keys of row 4, the last iteration of the
outer loop. -/
theorem RenderKeyBoard_last_row_overhangs :
    transformedDraws none (callsOf RenderKeyBoard) = keyboardBaseDraw :: keyDraws ∧
    footprintOf keyboardBaseDraw = some ((-5.0, 5.2), (4.0, 8.0)) ∧
    keyDraws[12 * 4 + 0]? = some (keyDraw 4 0) ∧
    footprintOf (keyDraw 4 0) = some ((-5.0, -4.2), (3.8, 4.6)) ∧
    onBase (keyDraw 4 0) = false ∧
    (∀ d ∈ keyDraws, (footprintOf d).map (insideX ((-5.0, 5.2), (4.0, 8.0))) = some true) ∧
    keyDraws.filter (fun d => !onBase d) = (List.range 12).map (fun col => keyDraw 4 col) := by
  decide!

end Scene
